import Mathlib

/-!
# RAK12022 PT100 node: the event handlers of `src/main.cpp`

A shallow embedding of the three event handlers of the firmware
(`app_event_handler`, `ble_data_handler`, `lora_data_handler`) as functions on an
explicit state record.  The globals read and written by the handlers are the
fields of `State`; every call that leaves the file (logging, radio, pins, sensor
driver, restart) is appended to `State.trace` as an `Effect`, in program order.
-/

namespace RAK12022

/-! ## Values -/

/-- A C `float`, kept as its IEEE-754 binary32 bit pattern (bit 31 is the sign). -/
abbrev F32 := Nat

/-- The C comparison `x != 0` on a `float`: false exactly for `+0.0` and `-0.0`,
that is when the 31 bits below the sign are all clear (a NaN compares unequal). -/
def F32.ne_zero (x : F32) : Bool := x % 2 ^ 31 != 0

/-- Value of `g_lorawan_settings.confirmed_msg_enabled`. -/
inductive lmh_confirm
  | LMH_UNCONFIRMED_MSG
  | LMH_CONFIRMED_MSG
  deriving DecidableEq, Repr

/-- Result of `send_lora_packet`, the three values the `switch` distinguishes. -/
inductive lmh_error_status
  | LMH_SUCCESS
  | LMH_BUSY
  | LMH_ERROR
  deriving DecidableEq, Repr

/-- The pins the handlers touch. -/
inductive Pin
  | WB_IO2
  | WB_IO6
  | MOSI
  | MISO
  | SCK
  | SS
  deriving DecidableEq, Repr

/-! ## Payload encoder (`WisCayenne payload(255)`) -/

/-- Data type tag of a payload entry. -/
inductive LppType
  | LPP_VOLTAGE
  | LPP_TEMPERATURE
  deriving DecidableEq, Repr

/-- Channel identifiers used by the application. -/
inductive LppChannel
  | LPP_CHANNEL_BATT
  | LPP_CHANNEL_TEMP
  deriving DecidableEq, Repr

/-- One typed channel entry of the payload: channel id, type tag and the value that
was handed to the encoder. -/
structure LppEntry where
  channel : LppChannel
  type : LppType
  value : F32
  deriving DecidableEq, Repr

/-- Modelled from the spec: the payload encoder class `WisCayenne` lives in the
framework library, not in `main.cpp`.  The payload is the ordered sequence of its
typed channel entries. -/
abbrev WisCayenne := List LppEntry

/-- Size given to the constructor in `WisCayenne payload(255)`. -/
def PAYLOAD_MAXSIZE : Nat := 255

/-- Modelled from the spec: every entry is fixed-width; a voltage and a temperature
entry both take a channel byte, a type byte and two value bytes. -/
def LppEntry.size (_e : LppEntry) : Nat := 2 + 2

/-- Modelled from the spec: `size()` is the number of encoded bytes. -/
def WisCayenne.getSize (p : WisCayenne) : Nat := (p.map LppEntry.size).sum

/-- Modelled from the spec: `reset()` clears the buffer to empty. -/
def WisCayenne.reset (_p : WisCayenne) : WisCayenne := []

/-- Modelled from the spec: an entry is appended unless that would exceed the
maximum buffer size, in which case it is rejected and the payload is unchanged. -/
def WisCayenne.addField (p : WisCayenne) (e : LppEntry) : WisCayenne :=
  if p.getSize + e.size > PAYLOAD_MAXSIZE then p else p ++ [e]

/-- Modelled from the spec: `add_voltage(channel, volts)`. -/
def WisCayenne.addVoltage (p : WisCayenne) (channel : LppChannel) (volts : F32) : WisCayenne :=
  p.addField ⟨channel, LppType.LPP_VOLTAGE, volts⟩

/-- Modelled from the spec: `add_temperature(channel, celsius)`. -/
def WisCayenne.addTemperature (p : WisCayenne) (channel : LppChannel) (celsius : F32) :
    WisCayenne :=
  p.addField ⟨channel, LppType.LPP_TEMPERATURE, celsius⟩

/-- The temperature channel entries of a payload. -/
def WisCayenne.temperatures (p : WisCayenne) : List LppEntry :=
  p.filter (fun e => e.type = LppType.LPP_TEMPERATURE)

/-! ## Effects -/

/-- A call that leaves `main.cpp`, recorded in program order. -/
inductive Effect
  /-- The macro call `MYLOG(tag, text)`, with the text already formatted. -/
  | mylog (tag text : String)
  /-- The call `MYLOG("APP", "PT100 temperature: %.2f res: %.2f stat: %d", ...)`. -/
  | mylog_pt100 (mTemp mResistance : F32) (mStatus : Nat)
  /-- The macro call `AT_PRINTF(text)`, with the text already formatted. -/
  | at_printf (text : String)
  | digitalWrite (pin : Pin) (high : Bool)
  | pinMode_INPUT_PULLDOWN (pin : Pin)
  | delay (ms : Nat)
  | read_batt
  /-- The call `maxTemp.begin(Max_CS, MAX31865_3WIRE, MAX31865_PT100)`. -/
  | maxTemp_begin
  | MAX31865_SetLowFaultThreshold (celsius : Nat)
  | MAX31865_SetHighFaultThreshold (celsius : Nat)
  | MAX31865_GetTemperatureAndStatus
  | SPIend
  | send_lora_packet (buffer : WisCayenne) (size : Nat) (retries : Nat)
  | send_p2p_packet (buffer : WisCayenne) (size : Nat)
  | lmh_join
  | api_reset
  | at_serial_input (byte : Nat)
  deriving DecidableEq, Repr

/-! ## State -/

/-- The globals the handlers read and write, the millisecond clock, the bytes
waiting in the BLE UART, and the trace of effects. -/
structure State where
  /-- The 16-bit event word `g_task_event_type`. -/
  g_task_event_type : Nat
  /-- The counter `uint8_t send_fail`. -/
  send_fail : Nat
  payload : WisCayenne
  has_rak12022 : Bool
  /-- The setting `g_lorawan_settings.lorawan_enable`. -/
  lorawan_enable : Bool
  /-- The setting `g_lorawan_settings.confirmed_msg_enabled`. -/
  confirmed_msg_enabled : lmh_confirm
  g_lpwan_has_joined : Bool
  g_join_result : Bool
  g_rx_fin_result : Bool
  g_enable_ble : Bool
  /-- The receive length `g_rx_data_len`, an 8-bit value. -/
  g_rx_data_len : Nat
  /-- The receive buffer `uint8_t g_rx_lora_data[]`. -/
  g_rx_lora_data : List Nat
  g_last_rssi : Int
  g_last_snr : Int
  g_last_fport : Nat
  /-- Bytes that `g_ble_uart.read()` will deliver. -/
  g_ble_uart : List Nat
  /-- Milliseconds since start-up, not wrapped; the call `millis()` returns this
  value modulo 2^32, see `millis`. -/
  uptime_ms : Nat
  trace : List Effect

/-- What the outside world supplies during one timer cycle. -/
structure TimerEnv where
  /-- The value `batt_level_f / 1000.0` obtained from the ten `read_batt()` samples. -/
  batt_volts : F32
  /-- Whether `digitalRead(WB_IO6) == HIGH` at a given time since start-up. -/
  drdy_high : Nat → Bool
  mTemp : F32
  mResistance : F32
  /-- The 8-bit fault status. -/
  mStatus : Nat
  /-- What `send_lora_packet` returns. -/
  send_result : lmh_error_status

/-! ## Constants of the framework headers -/

/-- Modelled from the spec: the event flags are declared in the framework header,
which is not part of the source; each event is one bit of the event word and the
`N_` constant is its 16-bit complement. -/
def STATUS : Nat := 0b0000000000000001
/-- Complement of `STATUS`. -/
def N_STATUS : Nat := 0b1111111111111110
/-- BLE UART data arrived. -/
def BLE_DATA : Nat := 0b0000000000000100
/-- Complement of `BLE_DATA`. -/
def N_BLE_DATA : Nat := 0b1111111111111011
/-- Radio receive. -/
def LORA_DATA : Nat := 0b0000000000001000
/-- Complement of `LORA_DATA`. -/
def N_LORA_DATA : Nat := 0b1111111111110111
/-- Radio tx-finished. -/
def LORA_TX_FIN : Nat := 0b0000000000010000
/-- Complement of `LORA_TX_FIN`. -/
def N_LORA_TX_FIN : Nat := 0b1111111111101111
/-- Radio join-finished. -/
def LORA_JOIN_FIN : Nat := 0b0000000001000000
/-- Complement of `LORA_JOIN_FIN`. -/
def N_LORA_JOIN_FIN : Nat := 0b1111111110111111

/-- Modelled from the spec: the fault bits of the status byte are declared in the
sensor driver header, which is not part of the source; one bit per fault. -/
def MAX31865_FAULT_TEMP_HIGH : Nat := 0x80
/-- Under-temperature. -/
def MAX31865_FAULT_TEMP_LOW : Nat := 0x40
/-- Reference input high. -/
def MAX31865_FAULT_REFIN_HIGH : Nat := 0x20
/-- Reference input low or open. -/
def MAX31865_FAULT_REFIN_LOW_OPEN : Nat := 0x10
/-- RTD input low or open. -/
def MAX31865_FAULT_RTDIN_LOW_OPEN : Nat := 0x08
/-- Voltage out of range. -/
def MAX31865_FAULT_VOLTAGE_OOR : Nat := 0x04

/-! ## Primitive statements -/

/-- Append one effect to the trace. -/
def emit (e : Effect) (s : State) : State := { s with trace := s.trace ++ [e] }

/-- The statement `MYLOG(tag, text)`. -/
def MYLOG (tag text : String) (s : State) : State := emit (Effect.mylog tag text) s

/-- The statement `AT_PRINTF(text)`. -/
def AT_PRINTF (text : String) (s : State) : State := emit (Effect.at_printf text) s

/-- The call `millis()`: the time since start-up as a `uint32_t`, which wraps around
at 2^32 = 4294967296 ms. -/
def millis (s : State) : Nat := s.uptime_ms % 4294967296

/-- The statement `delay(ms)`: time advances by `ms`. -/
def delay (ms : Nat) (s : State) : State :=
  emit (Effect.delay ms) { s with uptime_ms := s.uptime_ms + ms }

/-- The effects a handler added: the part of the trace of `after` that follows the
trace of `before`. -/
def new_effects (before after : State) : List Effect := after.trace.drop before.trace.length

/-! ## Receive dump (the two `sprintf` loops of `lora_data_handler`) -/

/-- The string terminator. -/
def NUL : Char := Char.ofNat 0

/-- The character `sprintf` prints with `%X` for a value below 16. -/
def hex_digit_upper (d : Nat) : Char :=
  if d < 10 then Char.ofNat (48 + d) else Char.ofNat (55 + d)

/-- What `%02X` prints for a `uint8_t` argument: high nibble, then low nibble. -/
def sprintf_02X (byte : Nat) : List Char :=
  [hex_digit_upper (byte / 16), hex_digit_upper (byte % 16)]

/-- The call `sprintf(&log_buff[pos], ...)` producing `text`: the characters are
stored from `pos` on, followed by the terminator.  A store past the end of the
array has no cell to change and is dropped. -/
def sprintf_at : List Char → Nat → List Char → List Char
  | buf, pos, [] => buf.set pos NUL
  | buf, pos, c :: cs => sprintf_at (buf.set pos c) (pos + 1) cs

/-- The loop `for (int idx = 0; idx < g_rx_data_len; idx++)` with its body
`sprintf(&log_buff[log_idx], "%02X" ++ suffix, g_rx_lora_data[idx]); log_idx += step;`.
The first argument counts the iterations still to run; `log_idx` is a `uint8_t`,
so the addition is taken modulo 256.  Returns the buffer and the final `log_idx`. -/
def rx_dump_loop (suffix : List Char) (step : Nat) (data : List Nat) :
    Nat → Nat → Nat → List Char → List Char × Nat
  | 0, _, log_idx, buf => (buf, log_idx)
  | n + 1, idx, log_idx, buf =>
      rx_dump_loop suffix step data n (idx + 1) ((log_idx + step) % 256)
        (sprintf_at buf log_idx (sprintf_02X (data.getD idx 0 % 256) ++ suffix))

/-- The C string that starts at the beginning of the buffer. -/
def c_str (buf : List Char) : List Char := buf.takeWhile (fun c => c != NUL)

/-- The declaration `char log_buff[g_rx_data_len * 3] = {0}`. -/
def log_buff_init (g_rx_data_len : Nat) : List Char := List.replicate (g_rx_data_len * 3) NUL

/-- The buffer after the first loop (`"%02X "`, three characters per byte). -/
def rx_spaced_buff (data : List Nat) (len : Nat) : List Char :=
  (rx_dump_loop [Char.ofNat 32] 3 data len 0 0 (log_buff_init len)).1

/-- The buffer after the second loop (`"%02X"`, two characters per byte), which
starts again at `log_idx = 0` on the buffer the first loop left. -/
def rx_hex_buff (data : List Nat) (len : Nat) : List Char :=
  (rx_dump_loop [] 2 data len 0 0 (rx_spaced_buff data len)).1

/-- The hex string the `+EVT:RX` line prints with `%s`. -/
def rx_hex_string (data : List Nat) (len : Nat) : List Char := c_str (rx_hex_buff data len)

/-- The hex digits of the `n` received bytes from index `idx` on, two per byte, high
nibble first, in byte order: what the `+EVT:RX` line is meant to carry. -/
def hex_dump (data : List Nat) : Nat → Nat → List Char
  | _, 0 => []
  | idx, n + 1 => sprintf_02X (data.getD idx 0 % 256) ++ hex_dump data (idx + 1) n

/-! ## `lora_data_handler` -/

/-- The join-finished block of `lora_data_handler`. -/
def lora_join_fin (s : State) : State :=
  if s.g_task_event_type &&& LORA_JOIN_FIN = LORA_JOIN_FIN then
    let s := { s with g_task_event_type := s.g_task_event_type &&& N_LORA_JOIN_FIN }
    if s.g_join_result then
      AT_PRINTF "+EVT:JOINED" (MYLOG "APP" "Successfully joined network" s)
    else
      emit Effect.lmh_join
        (AT_PRINTF "+EVT:JOIN_FAILED_TX_TIMEOUT" (MYLOG "APP" "Join network failed" s))
  else s

/-- The receive block of `lora_data_handler`. -/
def lora_data (s : State) : State :=
  if s.g_task_event_type &&& LORA_DATA = LORA_DATA then
    let s := { s with g_task_event_type := s.g_task_event_type &&& N_LORA_DATA }
    let s := MYLOG "APP" "Received package over LoRa" s
    let s := MYLOG "APP" ("RSSI " ++ toString s.g_last_rssi ++ " SNR " ++ toString s.g_last_snr) s
    let s := MYLOG "APP" (String.mk (c_str (rx_spaced_buff s.g_rx_lora_data s.g_rx_data_len))) s
    let log_buff := String.mk (rx_hex_string s.g_rx_lora_data s.g_rx_data_len)
    if s.lorawan_enable then
      AT_PRINTF ("+EVT:RX_1:" ++ toString s.g_last_rssi ++ ":" ++ toString s.g_last_snr
        ++ ":UNICAST:" ++ toString s.g_last_fport ++ ":" ++ log_buff) s
    else
      AT_PRINTF ("+EVT:RXP2P:" ++ toString s.g_last_rssi ++ ":" ++ toString s.g_last_snr
        ++ ":" ++ log_buff) s
  else s

/-- The statement `send_fail++` on the `uint8_t` counter, followed by the check
`if (send_fail == 10) { delay(100); api_reset(); }`. -/
def count_send_fail (s : State) : State :=
  let s := { s with send_fail := (s.send_fail + 1) % 256 }
  if s.send_fail = 10 then emit Effect.api_reset (delay 100 s) else s

/-- The tx-finished block of `lora_data_handler`. -/
def lora_tx_fin (s : State) : State :=
  if s.g_task_event_type &&& LORA_TX_FIN = LORA_TX_FIN then
    let s := { s with g_task_event_type := s.g_task_event_type &&& N_LORA_TX_FIN }
    if s.lorawan_enable then
      let s := MYLOG "APP"
        ("LoRa TX cycle " ++ (if s.g_rx_fin_result then "finished ACK" else "failed NAK")) s
      let s :=
        if s.lorawan_enable then
          if s.confirmed_msg_enabled = lmh_confirm.LMH_UNCONFIRMED_MSG then
            AT_PRINTF "+EVT:TX_DONE" s
          else
            AT_PRINTF ("+EVT:" ++
              (if s.g_rx_fin_result then "SEND_CONFIRMED_OK" else "SEND_CONFIRMED_FAILED")) s
        else
          AT_PRINTF "+EVT:TXP2P_DONE" s
      if !s.g_rx_fin_result then count_send_fail s else s
    else
      AT_PRINTF "+EVT:TXP2P_DONE\n" (MYLOG "APP" "P2P TX finished" s)
  else s

/-- The handler `lora_data_handler`: the three blocks in program order. -/
def lora_data_handler (s : State) : State := lora_tx_fin (lora_data (lora_join_fin s))

/-! ## `ble_data_handler` -/

/-- The loop `while (g_ble_uart.available() > 0) { at_serial_input(read()); delay(5); }`,
by recursion on the bytes that are waiting. -/
def ble_forward : List Nat → State → State
  | [], s => { s with g_ble_uart := [] }
  | b :: rest, s => ble_forward rest (delay 5 (emit (Effect.at_serial_input (b % 256)) s))

/-- The handler `ble_data_handler`. -/
def ble_data_handler (s : State) : State :=
  if s.g_enable_ble then
    if s.g_task_event_type &&& BLE_DATA = BLE_DATA then
      let s := MYLOG "AT" "RECEIVED BLE" s
      let s := { s with g_task_event_type := s.g_task_event_type &&& N_BLE_DATA }
      let s := ble_forward s.g_ble_uart s
      emit (Effect.at_serial_input 10) s
    else s
  else s

/-! ## `app_event_handler` -/

/-- The loop `for (int readings = 0; readings < 10; readings++) batt_level_f += read_batt();`,
by recursion on the number of samples still to take. -/
def read_batt_loop : Nat → State → State
  | 0, s => s
  | n + 1, s => read_batt_loop n (emit Effect.read_batt s)

/-- The polling loop
`while (digitalRead(WB_IO6) == HIGH) { delay(100); if ((millis() - start_wait) > 5000) { dready_stat = false; break; } }`.
`start_wait` is a `time_t`, a signed 64-bit integer, so `millis()` is converted to it
and the difference of the two 32-bit clock values is their exact integer difference,
negative once `millis()` has wrapped around.  The first argument bounds the number of
loop tests; the result is `none` when it is used up, otherwise the final
`dready_stat` and state. -/
def drdy_wait (drdy_high : Nat → Bool) (start_wait : Int) : Nat → State → Option (Bool × State)
  | 0, _ => none
  | fuel + 1, s =>
      if drdy_high s.uptime_ms then
        let s := delay 100 s
        if (millis s : Int) - start_wait > 5000 then some (false, s)
        else drdy_wait drdy_high start_wait fuel s
      else some (true, s)

/-- The data-ready wait of the timer cycle: the `DRDY = %d` log,
`time_t start_wait = millis()`, the polling loop and the `DRDY timeout` log. -/
def wait_data_ready (fuel : Nat) (env : TimerEnv) (s : State) : Option State :=
  let s := MYLOG "APP" ("DRDY = " ++ (if env.drdy_high s.uptime_ms then "1" else "0")) s
  let start_wait : Int := (millis s : Int)
  match drdy_wait env.drdy_high start_wait fuel s with
  | none => none
  | some (dready_stat, s) =>
      some (if !dready_stat then MYLOG "APP" "DRDY timeout" s else s)

/-- The six `if (mStatus & MAX31865_FAULT_...) MYLOG(...)` statements. -/
def report_faults (mStatus : Nat) (s : State) : State :=
  let s := if mStatus &&& MAX31865_FAULT_TEMP_HIGH ≠ 0 then
    MYLOG "APP" "RTD High Threshold" s else s
  let s := if mStatus &&& MAX31865_FAULT_TEMP_LOW ≠ 0 then
    MYLOG "APP" "RTD Low Threshold" s else s
  let s := if mStatus &&& MAX31865_FAULT_REFIN_HIGH ≠ 0 then
    MYLOG "APP" "REFIN- > 0.85 x Bias" s else s
  let s := if mStatus &&& MAX31865_FAULT_REFIN_LOW_OPEN ≠ 0 then
    MYLOG "APP" "REFIN- < 0.85 x Bias - FORCE- open" s else s
  let s := if mStatus &&& MAX31865_FAULT_RTDIN_LOW_OPEN ≠ 0 then
    MYLOG "APP" "RTDIN- < 0.85 x Bias - FORCE- open" s else s
  if mStatus &&& MAX31865_FAULT_VOLTAGE_OOR ≠ 0 then
    MYLOG "APP" "Voltage out of range fault" s else s

/-- What follows the data-ready wait inside `if (has_rak12022)`: the reading, the
encode decision, the fault reports and the bus shutdown. -/
def encode_reading (env : TimerEnv) (s : State) : State :=
  let s := emit Effect.MAX31865_GetTemperatureAndStatus s
  let s := emit (Effect.mylog_pt100 env.mTemp env.mResistance env.mStatus) s
  let s := if env.mResistance.ne_zero then
    { s with payload := s.payload.addTemperature LppChannel.LPP_CHANNEL_TEMP env.mTemp } else s
  let s := report_faults env.mStatus s
  let s := emit Effect.SPIend s
  let s := emit (Effect.pinMode_INPUT_PULLDOWN Pin.MOSI) s
  let s := emit (Effect.pinMode_INPUT_PULLDOWN Pin.MISO) s
  let s := emit (Effect.pinMode_INPUT_PULLDOWN Pin.SCK) s
  emit (Effect.pinMode_INPUT_PULLDOWN Pin.SS) s

/-- The body of `if (has_rak12022)`. -/
def read_sensor (fuel : Nat) (env : TimerEnv) (s : State) : Option State :=
  let s := emit Effect.maxTemp_begin s
  let s := emit (Effect.MAX31865_SetLowFaultThreshold 25) s
  let s := emit (Effect.MAX31865_SetHighFaultThreshold 34) s
  match wait_data_ready fuel env s with
  | none => none
  | some s => some (encode_reading env s)

/-- The dispatch step of the timer cycle, `if (g_lorawan_settings.lorawan_enable) ...`. -/
def dispatch (env : TimerEnv) (s : State) : State :=
  if s.lorawan_enable then
    if s.g_lpwan_has_joined then
      let s := emit (Effect.send_lora_packet s.payload s.payload.getSize 2) s
      match env.send_result with
      | lmh_error_status.LMH_SUCCESS => MYLOG "APP" "Packet enqueued" s
      | lmh_error_status.LMH_BUSY => MYLOG "APP" "LoRa transceiver is busy" s
      | lmh_error_status.LMH_ERROR =>
          MYLOG "APP" "Packet error, too big to send with current DR" s
    else
      MYLOG "APP" "Network not joined, skip sending" s
  else
    emit (Effect.send_p2p_packet s.payload s.payload.getSize) s

/-- The start of a timer cycle, up to `payload.addVoltage`: the flag is cleared, the
sensor supply is switched on, the payload is reset and the battery voltage is added. -/
def timer_wakeup (env : TimerEnv) (s : State) : State :=
  let s := { s with g_task_event_type := s.g_task_event_type &&& N_STATUS }
  let s := MYLOG "APP" "Timer wakeup" s
  let s := emit (Effect.digitalWrite Pin.WB_IO2 true) s
  let s := delay 200 s
  let s := { s with payload := s.payload.reset }
  let s := read_batt_loop 10 s
  { s with payload := s.payload.addVoltage LppChannel.LPP_CHANNEL_BATT env.batt_volts }

/-- The handler `app_event_handler`.  The result is `none` only when the bound on
the polling loop is used up. -/
def app_event_handler (fuel : Nat) (env : TimerEnv) (s : State) : Option State :=
  if s.g_task_event_type &&& STATUS = STATUS then
    let s := timer_wakeup env s
    match (if s.has_rak12022 then read_sensor fuel env s else some s) with
    | none => none
    | some s => some (emit (Effect.digitalWrite Pin.WB_IO2 false) (dispatch env s))
  else some s

/-! ## Reading the trace -/

/-- Whether an effect is a radio submit call of either kind. -/
def Effect.is_submit : Effect → Bool
  | Effect.send_lora_packet _ _ _ => true
  | Effect.send_p2p_packet _ _ => true
  | _ => false

/-- The radio submit calls among some effects, in order. -/
def radio_submits (es : List Effect) : List Effect := es.filter Effect.is_submit

/-- Whether an effect is an `AT_PRINTF` call. -/
def Effect.is_at_printf : Effect → Bool
  | Effect.at_printf _ => true
  | _ => false

/-- Modelled from the spec: the macro `AT_PRINTF` is declared in the framework header,
which is not part of the source.  Each call emits one line of the host-visible
protocol: its text, then a newline (as the macro `MYLOG` of the source does).  Other
effects write nothing to the AT channel. -/
def Effect.at_text : Effect → List Char
  | Effect.at_printf text => text.data ++ [Char.ofNat 10]
  | _ => []

/-- The characters written to the AT channel by some effects, in order. -/
def at_output (es : List Effect) : List Char := (es.map Effect.at_text).flatten

/-- Cut a character stream into its lines (without the newlines); text after the
last newline counts as a line when it is not empty. -/
def split_lines : List Char → List Char → List String
  | cur, [] => if cur = [] then [] else [String.mk cur.reverse]
  | cur, c :: cs =>
      if c = Char.ofNat 10 then String.mk cur.reverse :: split_lines [] cs
      else split_lines (c :: cur) cs

/-- The structured event lines among some effects: the lines of the AT channel
that start with `+EVT:`. -/
def event_lines (es : List Effect) : List String :=
  (split_lines [] (at_output es)).filter (fun l => "+EVT:".data.isPrefixOf l.data)

/-- The fault reports of the timer cycle: bit mask and log text, in program order. -/
def fault_table : List (Nat × String) :=
  [(MAX31865_FAULT_TEMP_HIGH, "RTD High Threshold"),
   (MAX31865_FAULT_TEMP_LOW, "RTD Low Threshold"),
   (MAX31865_FAULT_REFIN_HIGH, "REFIN- > 0.85 x Bias"),
   (MAX31865_FAULT_REFIN_LOW_OPEN, "REFIN- < 0.85 x Bias - FORCE- open"),
   (MAX31865_FAULT_RTDIN_LOW_OPEN, "RTDIN- < 0.85 x Bias - FORCE- open"),
   (MAX31865_FAULT_VOLTAGE_OOR, "Voltage out of range fault")]

/-- Whether an event flag is raised in the event word, `(g_task_event_type & flag) == flag`. -/
def flag_raised (s : State) (flag : Nat) : Prop := s.g_task_event_type &&& flag = flag

instance (s : State) (flag : Nat) : Decidable (flag_raised s flag) := by
  unfold flag_raised; infer_instance

/-- The fault reports that belong to a status byte: one log per fault bit that is set,
in the order of `fault_table`. -/
def fault_effects (mStatus : Nat) : List Effect :=
  (fault_table.filter (fun mt => mStatus &&& mt.1 ≠ 0)).map (fun mt => Effect.mylog "APP" mt.2)

/-- Whether an effect is one of the six fault reports. -/
def Effect.is_fault_report (e : Effect) : Bool :=
  fault_table.any (fun mt => decide (e = Effect.mylog "APP" mt.2))

/-- The buffer a radio submit call was given, if the effect is one. -/
def Effect.submitted : Effect → Option WisCayenne
  | Effect.send_lora_packet buffer _ _ => some buffer
  | Effect.send_p2p_packet buffer _ => some buffer
  | _ => none

/-- The event line of a tx-finished event, by radio mode, delivery mode and success flag. -/
def tx_event_line (lorawan_enable : Bool) (confirmed : lmh_confirm) (success : Bool) : String :=
  if lorawan_enable then
    if confirmed = lmh_confirm.LMH_UNCONFIRMED_MSG then "+EVT:TX_DONE"
    else if success then "+EVT:SEND_CONFIRMED_OK" else "+EVT:SEND_CONFIRMED_FAILED"
  else "+EVT:TXP2P_DONE"

/-- The effects of a timer cycle before the dispatch step: `k` is the number of polls of
the data-ready wait and `b` its `dready_stat`. -/
def sensor_effects (env : TimerEnv) (now k : Nat) (b : Bool) : List Effect :=
  [Effect.maxTemp_begin, Effect.MAX31865_SetLowFaultThreshold 25,
   Effect.MAX31865_SetHighFaultThreshold 34,
   Effect.mylog "APP" ("DRDY = " ++ (if env.drdy_high now then "1" else "0"))] ++
  List.replicate k (Effect.delay 100) ++
  (if b then [] else [Effect.mylog "APP" "DRDY timeout"]) ++
  [Effect.MAX31865_GetTemperatureAndStatus,
   Effect.mylog_pt100 env.mTemp env.mResistance env.mStatus] ++
  fault_effects env.mStatus ++
  [Effect.SPIend, Effect.pinMode_INPUT_PULLDOWN Pin.MOSI,
   Effect.pinMode_INPUT_PULLDOWN Pin.MISO, Effect.pinMode_INPUT_PULLDOWN Pin.SCK,
   Effect.pinMode_INPUT_PULLDOWN Pin.SS]

/-- The state a timer cycle hands to its dispatch step. -/
def before_dispatch (env : TimerEnv) (s : State) (k : Nat) (b : Bool) : State :=
  { s with
    g_task_event_type := s.g_task_event_type &&& N_STATUS,
    uptime_ms := s.uptime_ms + 200 + (if s.has_rak12022 then 100 * k else 0),
    payload :=
      ⟨LppChannel.LPP_CHANNEL_BATT, LppType.LPP_VOLTAGE, env.batt_volts⟩ ::
        (if s.has_rak12022 && env.mResistance.ne_zero then
          [⟨LppChannel.LPP_CHANNEL_TEMP, LppType.LPP_TEMPERATURE, env.mTemp⟩] else []),
    trace := s.trace ++
      [Effect.mylog "APP" "Timer wakeup", Effect.digitalWrite Pin.WB_IO2 true,
       Effect.delay 200] ++
      List.replicate 10 Effect.read_batt ++
      (if s.has_rak12022 then sensor_effects env (s.uptime_ms + 200) k b else []) }

/-! ## Runs of the node -/

/-- What `api_reset()` leads to: the node reboots and the globals of `main.cpp` have
their initial values again. -/
def restart (s : State) : State :=
  { s with send_fail := 0, payload := [], has_rak12022 := false }

/-- One run of `lora_data_handler`, followed by the restart when the handler called
`api_reset`. -/
def lora_step (s : State) : State :=
  if Effect.api_reset ∈ new_effects s (lora_data_handler s) then restart (lora_data_handler s)
  else lora_data_handler s

/-- The states a node can be in.  It starts with `send_fail = 0`; between handler runs
the framework, the radio stack and the configuration commands may raise event flags and
change every global except `send_fail`, which only `main.cpp` writes; and any of the
three handlers may run. -/
inductive Reachable : State → Prop
  | startup (s : State) : s.send_fail = 0 → Reachable s
  | environment (s e : State) : Reachable s → e.send_fail = s.send_fail → Reachable e
  | timer (s s' : State) (fuel : Nat) (env : TimerEnv) :
      Reachable s → app_event_handler fuel env s = some s' → Reachable s'
  | ble (s : State) : Reachable s → Reachable (ble_data_handler s)
  | lora (s : State) : Reachable s → Reachable (lora_step s)

/-- The 32-bit value of `millis()` does not wrap around in the `span` milliseconds
that follow the time `t`. -/
def no_wrap_within (t span : Nat) : Prop := t % 4294967296 + span < 4294967296

instance (t span : Nat) : Decidable (no_wrap_within t span) := by
  unfold no_wrap_within; infer_instance

/-- A state to evaluate the handlers on: start-up values, no flag raised. -/
def state0 : State :=
  { g_task_event_type := 0, send_fail := 0, payload := [], has_rak12022 := true,
    lorawan_enable := true, confirmed_msg_enabled := lmh_confirm.LMH_UNCONFIRMED_MSG,
    g_lpwan_has_joined := true, g_join_result := false, g_rx_fin_result := false,
    g_enable_ble := true, g_rx_data_len := 0, g_rx_lora_data := [], g_last_rssi := 0,
    g_last_snr := 0, g_last_fport := 0, g_ble_uart := [], uptime_ms := 0, trace := [] }

/-- A timer environment to evaluate the cycle on: the data-ready line is asserted at
once, the reading is 25.0 degrees at 109.73 ohm with no fault. -/
def env0 : TimerEnv :=
  { batt_volts := 0x40866666, drdy_high := fun _ => false, mTemp := 0x41C80000,
    mResistance := 0x42DB75C3, mStatus := 0, send_result := lmh_error_status.LMH_SUCCESS }

/-- A state one second before `millis()` wraps around. -/
def near_wrap_state : State := { state0 with uptime_ms := 4294966296 }

/-- A timer environment whose data-ready line is never asserted. -/
def env_never_ready : TimerEnv := { env0 with drdy_high := fun _ => true }

/-- A timer event on a node whose payload still holds the entries of an earlier cycle. -/
def timer_state : State :=
  { state0 with
    g_task_event_type := STATUS,
    payload := [⟨LppChannel.LPP_CHANNEL_BATT, LppType.LPP_VOLTAGE, 0x40800000⟩,
                ⟨LppChannel.LPP_CHANNEL_TEMP, LppType.LPP_TEMPERATURE, 0x41A00000⟩] }

/-- A timer event in network mode on a node that has not joined. -/
def timer_state_not_joined : State := { timer_state with g_lpwan_has_joined := false }

/-- A received frame of 129 bytes, `0x00` up to `0x80`. -/
def rx_frame_129 : List Nat := List.range 129

/-- A tx-finished event in network mode, confirmed delivery, success flag false. -/
def confirmed_nak_state : State :=
  { state0 with g_task_event_type := LORA_TX_FIN, lorawan_enable := true,
                confirmed_msg_enabled := lmh_confirm.LMH_CONFIRMED_MSG,
                g_rx_fin_result := false }

/-- A tx-finished event in network mode, unconfirmed delivery, success flag false,
three failures counted so far. -/
def unconfirmed_nak_state : State :=
  { state0 with g_task_event_type := LORA_TX_FIN, lorawan_enable := true,
                confirmed_msg_enabled := lmh_confirm.LMH_UNCONFIRMED_MSG,
                g_rx_fin_result := false, send_fail := 3 }

/-- A join-finished event whose join result is failure. -/
def join_failed_state : State :=
  { state0 with g_task_event_type := LORA_JOIN_FIN, g_join_result := false, send_fail := 4 }

/-- A tx-finished event in peer-to-peer mode. -/
def p2p_tx_state : State :=
  { state0 with g_task_event_type := LORA_TX_FIN, lorawan_enable := false, send_fail := 2 }


end RAK12022

/-! ## Basic facts -/

namespace RAK12022

theorem new_effects_append (s t : State) (es : List Effect) (h : t.trace = s.trace ++ es) :
    new_effects s t = es := by
  simp [new_effects, h]

theorem and_clear_other (e n f : Nat) (h : n &&& f = f) : (e &&& n) &&& f = e &&& f := by
  rw [Nat.and_assoc, h]

theorem lora_join_fin_idle (s : State) (h : ¬ flag_raised s LORA_JOIN_FIN) :
    lora_join_fin s = s := by
  unfold flag_raised at h
  simp [lora_join_fin, h]

theorem lora_data_idle (s : State) (h : ¬ flag_raised s LORA_DATA) : lora_data s = s := by
  unfold flag_raised at h
  simp [lora_data, h]

theorem lora_tx_fin_idle (s : State) (h : ¬ flag_raised s LORA_TX_FIN) : lora_tx_fin s = s := by
  unfold flag_raised at h
  simp [lora_tx_fin, h]

/-- The tx-finished block, when its flag is raised, written out by cases. -/
theorem lora_tx_fin_raised (s : State) (h : flag_raised s LORA_TX_FIN) :
    lora_tx_fin s =
      if s.lorawan_enable then
        let line := if s.confirmed_msg_enabled = lmh_confirm.LMH_UNCONFIRMED_MSG then
            "+EVT:TX_DONE"
          else "+EVT:" ++
            (if s.g_rx_fin_result then "SEND_CONFIRMED_OK" else "SEND_CONFIRMED_FAILED")
        let log := Effect.mylog "APP"
          ("LoRa TX cycle " ++ (if s.g_rx_fin_result then "finished ACK" else "failed NAK"))
        if s.g_rx_fin_result then
          { s with g_task_event_type := s.g_task_event_type &&& N_LORA_TX_FIN,
                   trace := s.trace ++ [log, Effect.at_printf line] }
        else if (s.send_fail + 1) % 256 = 10 then
          { s with g_task_event_type := s.g_task_event_type &&& N_LORA_TX_FIN,
                   send_fail := (s.send_fail + 1) % 256,
                   uptime_ms := s.uptime_ms + 100,
                   trace := s.trace ++
                     [log, Effect.at_printf line, Effect.delay 100, Effect.api_reset] }
        else
          { s with g_task_event_type := s.g_task_event_type &&& N_LORA_TX_FIN,
                   send_fail := (s.send_fail + 1) % 256,
                   trace := s.trace ++ [log, Effect.at_printf line] }
      else
        { s with g_task_event_type := s.g_task_event_type &&& N_LORA_TX_FIN,
                 trace := s.trace ++
                   [Effect.mylog "APP" "P2P TX finished", Effect.at_printf "+EVT:TXP2P_DONE\n"] } := by
  unfold flag_raised at h
  cases hl : s.lorawan_enable <;> cases hr : s.g_rx_fin_result <;>
    cases hc : s.confirmed_msg_enabled <;>
    by_cases h10 : (s.send_fail + 1) % 256 = 10 <;>
    simp [lora_tx_fin, h, hl, hr, hc, h10, count_send_fail, MYLOG, AT_PRINTF, emit, delay]

/-- What the join-finished block leaves alone, and that it neither restarts nor submits. -/
theorem lora_join_fin_frame (s : State) :
    (lora_join_fin s).send_fail = s.send_fail ∧
    (lora_join_fin s).lorawan_enable = s.lorawan_enable ∧
    (lora_join_fin s).confirmed_msg_enabled = s.confirmed_msg_enabled ∧
    (lora_join_fin s).g_rx_fin_result = s.g_rx_fin_result ∧
    (flag_raised (lora_join_fin s) LORA_TX_FIN ↔ flag_raised s LORA_TX_FIN) ∧
    ∃ es, (lora_join_fin s).trace = s.trace ++ es ∧ Effect.api_reset ∉ es := by
  have hc : N_LORA_JOIN_FIN &&& LORA_TX_FIN = LORA_TX_FIN := by decide
  by_cases h : s.g_task_event_type &&& LORA_JOIN_FIN = LORA_JOIN_FIN
  · cases hj : s.g_join_result <;>
      simp [lora_join_fin, h, hj, MYLOG, AT_PRINTF, emit, flag_raised, and_clear_other _ _ _ hc]
  · simp [lora_join_fin, h]

/-- What the receive block leaves alone, and that it neither restarts nor submits. -/
theorem lora_data_frame (s : State) :
    (lora_data s).send_fail = s.send_fail ∧
    (lora_data s).lorawan_enable = s.lorawan_enable ∧
    (lora_data s).confirmed_msg_enabled = s.confirmed_msg_enabled ∧
    (lora_data s).g_rx_fin_result = s.g_rx_fin_result ∧
    (flag_raised (lora_data s) LORA_TX_FIN ↔ flag_raised s LORA_TX_FIN) ∧
    ∃ es, (lora_data s).trace = s.trace ++ es ∧ Effect.api_reset ∉ es := by
  have hc : N_LORA_DATA &&& LORA_TX_FIN = LORA_TX_FIN := by decide
  by_cases h : s.g_task_event_type &&& LORA_DATA = LORA_DATA
  · cases hl : s.lorawan_enable <;>
      simp [lora_data, h, hl, MYLOG, AT_PRINTF, emit, flag_raised, and_clear_other _ _ _ hc]
  · simp [lora_data, h]

/-- The state on which the tx-finished block of `lora_data_handler` runs agrees with
the state the handler was called on in everything that block reads. -/
theorem before_tx_fin (s : State) :
    (lora_data (lora_join_fin s)).send_fail = s.send_fail ∧
    (lora_data (lora_join_fin s)).lorawan_enable = s.lorawan_enable ∧
    (lora_data (lora_join_fin s)).confirmed_msg_enabled = s.confirmed_msg_enabled ∧
    (lora_data (lora_join_fin s)).g_rx_fin_result = s.g_rx_fin_result ∧
    (flag_raised (lora_data (lora_join_fin s)) LORA_TX_FIN ↔ flag_raised s LORA_TX_FIN) ∧
    ∃ es, (lora_data (lora_join_fin s)).trace = s.trace ++ es ∧ Effect.api_reset ∉ es := by
  obtain ⟨a1, a2, a3, a4, a5, es1, a6, a7⟩ := lora_join_fin_frame s
  obtain ⟨b1, b2, b3, b4, b5, es2, b6, b7⟩ := lora_data_frame (lora_join_fin s)
  refine ⟨by rw [b1, a1], by rw [b2, a2], by rw [b3, a3], by rw [b4, a4], b5.trans a5,
    es1 ++ es2, by rw [b6, a6, List.append_assoc], ?_⟩
  simp [a7, b7]

/-- Claim C2: when a tx-finished event is handled, whatever the counter was before,
the handler calls `api_reset` exactly when this event increments `send_fail` (network
mode, success flag false) and the incremented counter is 10; an event that leaves the
counter at 9 or less does not restart. -/
theorem restart_iff_counter_reaches_ten (s : State) (h : flag_raised s LORA_TX_FIN) :
    ((lora_data_handler s).send_fail =
        if s.lorawan_enable = true ∧ s.g_rx_fin_result = false then (s.send_fail + 1) % 256
        else s.send_fail) ∧
    (Effect.api_reset ∈ new_effects s (lora_data_handler s) ↔
        (s.lorawan_enable = true ∧ s.g_rx_fin_result = false) ∧
          (lora_data_handler s).send_fail = 10) ∧
    ((lora_data_handler s).send_fail ≤ 9 →
        Effect.api_reset ∉ new_effects s (lora_data_handler s)) := by
  obtain ⟨m1, m2, m3, m4, m5, es, m6, m7⟩ := before_tx_fin s
  have key := lora_tx_fin_raised _ (m5.mpr h)
  rw [m1, m2, m3, m4, m6] at key
  unfold lora_data_handler
  rw [key]
  cases hl : s.lorawan_enable <;> cases hr : s.g_rx_fin_result <;>
    by_cases h10 : (s.send_fail + 1) % 256 = 10 <;>
    simp [hl, hr, h10, new_effects, m7]

/-- Witness for C2: the ninth failure is already counted, the tenth arrives. -/
theorem restart_iff_counter_reaches_ten_witness :
    flag_raised { state0 with g_task_event_type := LORA_TX_FIN, send_fail := 9 } LORA_TX_FIN ∧
    Effect.api_reset ∈ new_effects { state0 with g_task_event_type := LORA_TX_FIN, send_fail := 9 }
      (lora_data_handler { state0 with g_task_event_type := LORA_TX_FIN, send_fail := 9 }) :=
  ⟨by decide,
   ((restart_iff_counter_reaches_ten
      { state0 with g_task_event_type := LORA_TX_FIN, send_fail := 9 } (by decide)).2.1).mpr
     ⟨⟨rfl, rfl⟩, by decide⟩⟩

/-- When only the tx-finished flag of the three radio flags is raised, the handler is
its tx-finished block. -/
theorem lora_data_handler_tx_only (s : State) (hj : ¬ flag_raised s LORA_JOIN_FIN)
    (hd : ¬ flag_raised s LORA_DATA) : lora_data_handler s = lora_tx_fin s := by
  unfold lora_data_handler
  rw [lora_join_fin_idle s hj, lora_data_idle s hd]

/-- Counterexample to C3 as stated: in network mode with unconfirmed delivery, a
tx-finished event with the success flag false does change the counter, from 3 to 4. -/
theorem unconfirmed_nak_is_counted :
    flag_raised unconfirmed_nak_state LORA_TX_FIN ∧
    unconfirmed_nak_state.lorawan_enable = true ∧
    unconfirmed_nak_state.confirmed_msg_enabled = lmh_confirm.LMH_UNCONFIRMED_MSG ∧
    unconfirmed_nak_state.g_rx_fin_result = false ∧
    unconfirmed_nak_state.send_fail = 3 ∧
    (lora_data_handler unconfirmed_nak_state).send_fail = 4 ∧
    ¬ ((lora_data_handler unconfirmed_nak_state).send_fail = unconfirmed_nak_state.send_fail) := by
  decide

/-- Claim C3, amended: in network mode with unconfirmed delivery, a tx-finished event
with the success flag false increments `send_fail` by one (modulo 256), and the
event line emitted for it is `+EVT:TX_DONE`. -/
theorem unconfirmed_nak_tx_done_and_counted (s : State) (h : flag_raised s LORA_TX_FIN)
    (hl : s.lorawan_enable = true)
    (hc : s.confirmed_msg_enabled = lmh_confirm.LMH_UNCONFIRMED_MSG)
    (hr : s.g_rx_fin_result = false) :
    (lora_data_handler s).send_fail = (s.send_fail + 1) % 256 ∧
    (¬ flag_raised s LORA_JOIN_FIN → ¬ flag_raised s LORA_DATA →
      event_lines (new_effects s (lora_data_handler s)) = ["+EVT:TX_DONE"]) := by
  constructor
  · obtain ⟨m1, m2, m3, m4, m5, es, m6, _⟩ := before_tx_fin s
    have key := lora_tx_fin_raised _ (m5.mpr h)
    rw [m1, m2, m3, m4, m6] at key
    unfold lora_data_handler
    rw [key]
    by_cases h10 : (s.send_fail + 1) % 256 = 10 <;> simp [hl, hr, h10]
  · intro hj hd
    rw [lora_data_handler_tx_only s hj hd, lora_tx_fin_raised s h]
    by_cases h10 : (s.send_fail + 1) % 256 = 10
    · simp only [hl, hr, hc, h10, if_true, new_effects]
      simp only [Bool.false_eq_true, if_false, List.drop_left]
      decide
    · simp only [hl, hr, hc, h10, if_true, new_effects]
      simp only [Bool.false_eq_true, if_false, List.drop_left]
      decide

/-- Witness for the amended C3. -/
theorem unconfirmed_nak_tx_done_and_counted_witness :
    flag_raised unconfirmed_nak_state LORA_TX_FIN ∧
    unconfirmed_nak_state.lorawan_enable = true ∧
    unconfirmed_nak_state.confirmed_msg_enabled = lmh_confirm.LMH_UNCONFIRMED_MSG ∧
    unconfirmed_nak_state.g_rx_fin_result = false ∧
    (lora_data_handler unconfirmed_nak_state).send_fail =
      (unconfirmed_nak_state.send_fail + 1) % 256 ∧
    event_lines (new_effects unconfirmed_nak_state (lora_data_handler unconfirmed_nak_state)) =
      ["+EVT:TX_DONE"] :=
  ⟨by decide, rfl, rfl, rfl,
   (unconfirmed_nak_tx_done_and_counted unconfirmed_nak_state (by decide) rfl rfl rfl).1,
   (unconfirmed_nak_tx_done_and_counted unconfirmed_nak_state (by decide) rfl rfl rfl).2
     (by decide) (by decide)⟩

/-- Claim C7: a tx-finished event makes the handler call `AT_PRINTF` once and emit
exactly one structured event line: `+EVT:TX_DONE` in network mode with unconfirmed delivery whatever the success
flag, `+EVT:SEND_CONFIRMED_OK` or `+EVT:SEND_CONFIRMED_FAILED` by the success flag in
network mode with confirmed delivery, `+EVT:TXP2P_DONE` in peer-to-peer mode whatever
the success flag; in peer-to-peer mode `send_fail` is unchanged. -/
theorem tx_fin_event_line (s : State) (h : flag_raised s LORA_TX_FIN)
    (hj : ¬ flag_raised s LORA_JOIN_FIN) (hd : ¬ flag_raised s LORA_DATA) :
    ((new_effects s (lora_data_handler s)).filter Effect.is_at_printf).length = 1 ∧
    event_lines (new_effects s (lora_data_handler s)) =
      [tx_event_line s.lorawan_enable s.confirmed_msg_enabled s.g_rx_fin_result] ∧
    (s.lorawan_enable = false → (lora_data_handler s).send_fail = s.send_fail) := by
  rw [lora_data_handler_tx_only s hj hd, lora_tx_fin_raised s h]
  cases hl : s.lorawan_enable <;> cases hr : s.g_rx_fin_result <;>
    cases hc : s.confirmed_msg_enabled <;>
    by_cases h10 : (s.send_fail + 1) % 256 = 10 <;>
    simp only [h10, if_true, if_false, new_effects, Bool.false_eq_true, List.drop_left,
      tx_event_line, reduceCtorEq] <;>
    first
      | decide
      | exact ⟨by decide, by decide, fun hf => hf.elim⟩

/-- Witness for C7: peer-to-peer mode, success flag false. -/
theorem tx_fin_event_line_witness :
    flag_raised p2p_tx_state LORA_TX_FIN ∧ ¬ flag_raised p2p_tx_state LORA_JOIN_FIN ∧
    ¬ flag_raised p2p_tx_state LORA_DATA ∧
    event_lines (new_effects p2p_tx_state (lora_data_handler p2p_tx_state)) =
      ["+EVT:TXP2P_DONE"] ∧
    (lora_data_handler p2p_tx_state).send_fail = p2p_tx_state.send_fail :=
  ⟨by decide, by decide, by decide,
   (tx_fin_event_line p2p_tx_state (by decide) (by decide) (by decide)).2.1,
   (tx_fin_event_line p2p_tx_state (by decide) (by decide) (by decide)).2.2 rfl⟩

/-- Claim C6: when the join-finished flag is the only radio flag raised and the join
result is failure, the handler clears that flag, reports the failure and calls
`lmh_join` once; nothing else of the state changes (counter, payload and the other
flags are as before) and there is no radio submit and no restart.  When the join
result is success, `lmh_join` is not called. -/
theorem join_failure_rejoins_once (s : State) (h : flag_raised s LORA_JOIN_FIN)
    (hd : ¬ flag_raised s LORA_DATA) (ht : ¬ flag_raised s LORA_TX_FIN) :
    (s.g_join_result = false →
      lora_data_handler s =
        { s with g_task_event_type := s.g_task_event_type &&& N_LORA_JOIN_FIN,
                 trace := s.trace ++ [Effect.mylog "APP" "Join network failed",
                   Effect.at_printf "+EVT:JOIN_FAILED_TX_TIMEOUT", Effect.lmh_join] } ∧
      (new_effects s (lora_data_handler s)).count Effect.lmh_join = 1 ∧
      radio_submits (new_effects s (lora_data_handler s)) = [] ∧
      Effect.api_reset ∉ new_effects s (lora_data_handler s) ∧
      (lora_data_handler s).send_fail = s.send_fail ∧
      (lora_data_handler s).payload = s.payload) ∧
    (s.g_join_result = true →
      (new_effects s (lora_data_handler s)).count Effect.lmh_join = 0) := by
  have c1 : N_LORA_JOIN_FIN &&& LORA_DATA = LORA_DATA := by decide
  have c2 : N_LORA_JOIN_FIN &&& LORA_TX_FIN = LORA_TX_FIN := by decide
  have hd1 : ¬ flag_raised (lora_join_fin s) LORA_DATA := by
    unfold flag_raised at *
    cases hj : s.g_join_result <;>
      simpa [lora_join_fin, h, hj, MYLOG, AT_PRINTF, emit, and_clear_other _ _ _ c1] using hd
  have ht1 : ¬ flag_raised (lora_join_fin s) LORA_TX_FIN := by
    unfold flag_raised at *
    cases hj : s.g_join_result <;>
      simpa [lora_join_fin, h, hj, MYLOG, AT_PRINTF, emit, and_clear_other _ _ _ c2] using ht
  have hh : lora_data_handler s = lora_join_fin s := by
    unfold lora_data_handler
    rw [lora_data_idle _ hd1, lora_tx_fin_idle _ ht1]
  unfold flag_raised at h
  rw [hh]
  constructor
  · intro hj
    simp [lora_join_fin, h, hj, MYLOG, AT_PRINTF, emit, new_effects, radio_submits,
      Effect.is_submit]
  · intro hj
    simp [lora_join_fin, h, hj, MYLOG, AT_PRINTF, emit, new_effects]

/-- Witness for C6. -/
theorem join_failure_rejoins_once_witness :
    flag_raised join_failed_state LORA_JOIN_FIN ∧ ¬ flag_raised join_failed_state LORA_DATA ∧
    ¬ flag_raised join_failed_state LORA_TX_FIN ∧ join_failed_state.g_join_result = false ∧
    (new_effects join_failed_state (lora_data_handler join_failed_state)).count
      Effect.lmh_join = 1 :=
  ⟨by decide, by decide, by decide, rfl,
   ((join_failure_rejoins_once join_failed_state (by decide) (by decide) (by decide)).1 rfl).2.1⟩

/-! ## The data-ready wait -/

/-- While `millis()` does not wrap, the difference the loop tests is the time that has
passed. -/
theorem millis_diff_no_wrap (t0 t : Nat) (hw : no_wrap_within t0 5100) (h1 : t0 ≤ t)
    (h2 : t - t0 ≤ 5100) :
    ((t % 4294967296 : Nat) : Int) - ((t0 % 4294967296 : Nat) : Int) = ((t - t0 : Nat) : Int) := by
  unfold no_wrap_within at hw
  omega

/-- Whenever the polling loop returns, it has run some number `k` of polls of 100 ms
and changed nothing but the time and the trace. -/
theorem drdy_wait_shape (drdy_high : Nat → Bool) (start_wait : Int) :
    ∀ (fuel : Nat) (s : State) (b : Bool) (s' : State),
      drdy_wait drdy_high start_wait fuel s = some (b, s') →
      ∃ k, s' = { s with uptime_ms := s.uptime_ms + 100 * k,
                         trace := s.trace ++ List.replicate k (Effect.delay 100) } := by
  intro fuel
  induction fuel with
  | zero =>
    intro s b s' h
    simp [drdy_wait] at h
  | succ n ih =>
    intro s b s' h
    unfold drdy_wait at h
    by_cases h1 : drdy_high s.uptime_ms = true
    · simp only [h1, if_true] at h
      by_cases h2 : (millis (delay 100 s) : Int) - start_wait > 5000
      · simp only [h2, if_true, Option.some.injEq, Prod.mk.injEq] at h
        refine ⟨1, ?_⟩
        rw [← h.2]
        simp [delay, emit]
      · simp only [h2, if_false] at h
        obtain ⟨k, hk⟩ := ih _ _ _ h
        refine ⟨k + 1, ?_⟩
        rw [hk]
        simp [delay, emit, List.replicate_succ, Nat.mul_add, Nat.add_assoc]
        omega
    · simp only [h1, Bool.false_eq_true, if_false, Option.some.injEq, Prod.mk.injEq] at h
      refine ⟨0, ?_⟩
      rw [← h.2]
      simp

/-- While `millis()` does not wrap within 5100 ms of the start `t0` of the wait, the
polling loop returns once the bound covers the polls that are left before the
timeout: it has run `k` polls of 100 ms, changed nothing but the time and the trace,
stopped no later than 5100 ms after `t0`, and reports `false` only past 5000 ms and
`true` only on seeing the line asserted. -/
theorem drdy_wait_spec (drdy_high : Nat → Bool) (t0 : Nat) (hw : no_wrap_within t0 5100) :
    ∀ (fuel : Nat) (s : State), t0 ≤ s.uptime_ms → s.uptime_ms - t0 ≤ 5000 →
      (5000 - (s.uptime_ms - t0)) / 100 + 1 ≤ fuel →
      ∃ (k : Nat) (b : Bool),
        drdy_wait drdy_high ((t0 % 4294967296 : Nat) : Int) fuel s =
          some (b, { s with uptime_ms := s.uptime_ms + 100 * k,
                            trace := s.trace ++ List.replicate k (Effect.delay 100) }) ∧
        s.uptime_ms + 100 * k - t0 ≤ 5100 ∧
        (b = false → 5000 < s.uptime_ms + 100 * k - t0) ∧
        (b = true → drdy_high (s.uptime_ms + 100 * k) = false) := by
  intro fuel
  induction fuel with
  | zero => intro s _ _ h; omega
  | succ n ih =>
    intro s h1 h2 h3
    have hm : (delay 100 s).uptime_ms = s.uptime_ms + 100 := by simp [delay, emit]
    have hd : (millis (delay 100 s) : Int) - ((t0 % 4294967296 : Nat) : Int) =
        ((s.uptime_ms + 100 - t0 : Nat) : Int) := by
      unfold millis
      rw [hm]
      exact millis_diff_no_wrap t0 (s.uptime_ms + 100) hw (by omega) (by omega)
    unfold drdy_wait
    by_cases hl : drdy_high s.uptime_ms = true
    · by_cases ht : s.uptime_ms + 100 - t0 > 5000
      · have hc : (millis (delay 100 s) : Int) - ((t0 % 4294967296 : Nat) : Int) > 5000 := by
          rw [hd]
          omega
        refine ⟨1, false, ?_, ?_, ?_, ?_⟩
        · simp only [hl, hc, if_true]
          simp [delay, emit]
        · omega
        · intro _
          omega
        · intro hb
          cases hb
      · have hc : ¬ ((millis (delay 100 s) : Int) - ((t0 % 4294967296 : Nat) : Int) > 5000) := by
          rw [hd]
          omega
        obtain ⟨k, b, e1, e2, e3, e4⟩ := ih (delay 100 s) (by omega) (by omega) (by omega)
        refine ⟨k + 1, b, ?_, ?_, ?_, ?_⟩
        · simp only [hl, hc, if_true, if_false]
          rw [e1]
          simp [delay, emit, List.replicate_succ, Nat.mul_add, Nat.add_assoc]
          omega
        · rw [hm] at e2
          omega
        · intro hb
          have := e3 hb
          rw [hm] at this
          omega
        · intro hb
          have := e4 hb
          rw [hm] at this
          rw [← this]
          congr 1
          omega
    · refine ⟨0, true, ?_, ?_, ?_, ?_⟩
      · simp [hl]
      · omega
      · intro hb
        cases hb
      · intro _
        simpa using hl

/-- Whenever the data-ready wait returns, it has run `k` polls and changed only the time
and the trace. -/
theorem wait_data_ready_shape (fuel : Nat) (env : TimerEnv) (s s' : State)
    (h : wait_data_ready fuel env s = some s') :
    ∃ (k : Nat) (b : Bool),
      s' = { s with uptime_ms := s.uptime_ms + 100 * k,
                    trace := s.trace ++
                      [Effect.mylog "APP"
                        ("DRDY = " ++ (if env.drdy_high s.uptime_ms then "1" else "0"))] ++
                      List.replicate k (Effect.delay 100) ++
                      (if b then [] else [Effect.mylog "APP" "DRDY timeout"]) } := by
  unfold wait_data_ready at h
  cases hd : drdy_wait env.drdy_high
      (millis (MYLOG "APP"
        ("DRDY = " ++ (if env.drdy_high s.uptime_ms then "1" else "0")) s) : Int) fuel
      (MYLOG "APP" ("DRDY = " ++ (if env.drdy_high s.uptime_ms then "1" else "0")) s) with
  | none => simp [hd] at h
  | some r =>
    obtain ⟨b, v⟩ := r
    simp only [hd, Option.some.injEq] at h
    obtain ⟨k, hk⟩ := drdy_wait_shape _ _ _ _ _ _ hd
    refine ⟨k, b, ?_⟩
    rw [← h, hk]
    cases b <;> simp [MYLOG, emit]

/-- The data-ready wait written out: while `millis()` does not wrap within 5100 ms of
its start, with a bound of at least 51 it returns, after `k` polls, having changed only
the time and the trace. -/
theorem wait_data_ready_spec (fuel : Nat) (hf : 51 ≤ fuel) (env : TimerEnv) (s : State)
    (hw : no_wrap_within s.uptime_ms 5100) :
    ∃ (k : Nat) (b : Bool),
      wait_data_ready fuel env s =
        some { s with uptime_ms := s.uptime_ms + 100 * k,
                      trace := s.trace ++
                        [Effect.mylog "APP"
                          ("DRDY = " ++ (if env.drdy_high s.uptime_ms then "1" else "0"))] ++
                        List.replicate k (Effect.delay 100) ++
                        (if b then [] else [Effect.mylog "APP" "DRDY timeout"]) } ∧
      100 * k ≤ 5100 ∧ (b = false → 5000 < 100 * k) ∧
      (b = true → env.drdy_high (s.uptime_ms + 100 * k) = false) := by
  obtain ⟨k, b, e1, e2, e3, e4⟩ := drdy_wait_spec env.drdy_high s.uptime_ms hw fuel
    (MYLOG "APP" ("DRDY = " ++ (if env.drdy_high s.uptime_ms then "1" else "0")) s)
    (by simp [MYLOG, emit]) (by simp [MYLOG, emit]) (by simp [MYLOG, emit]; omega)
  refine ⟨k, b, ?_, ?_, ?_, ?_⟩
  · unfold wait_data_ready
    have hm : millis (MYLOG "APP"
        ("DRDY = " ++ (if env.drdy_high s.uptime_ms then "1" else "0")) s)
        = s.uptime_ms % 4294967296 := by simp [millis, MYLOG, emit]
    simp only [hm, e1]
    cases b <;> simp [MYLOG, emit]
  · simp [MYLOG, emit] at e2
    omega
  · intro hb
    have := e3 hb
    simp [MYLOG, emit] at this
    omega
  · intro hb
    simpa [MYLOG, emit] using e4 hb

/-- Counterexample to C9 as stated: on a line that is never asserted the wait ends
5100 ms after it began, which is more than 5000 ms. -/
theorem drdy_wait_takes_5100_ms :
    (∀ t, env_never_ready.drdy_high t = true) ∧
    (wait_data_ready 51 env_never_ready state0).map (fun s => s.uptime_ms - state0.uptime_ms) =
      some 5100 ∧
    ¬ (5100 ≤ 5000) := by
  refine ⟨fun _ => rfl, ?_, by decide⟩
  decide

/-- Claim C9, amended: whatever the data-ready line does, with time advancing by the
100 ms poll delay per iteration and as long as the 32-bit `millis()` does not wrap
around within 5100 ms of the start of the wait, the wait of the timer cycle returns
(a bound of 51 loop tests is enough) and has then waited at most 5100 ms; on a line
that is never asserted it waits exactly 5100 ms, leaves through the timeout path and
logs `DRDY timeout`. -/
theorem drdy_wait_bounded (fuel : Nat) (hf : 51 ≤ fuel) (env : TimerEnv) (s : State)
    (hw : no_wrap_within s.uptime_ms 5100) :
    ∃ s', wait_data_ready fuel env s = some s' ∧
      s.uptime_ms ≤ s'.uptime_ms ∧ s'.uptime_ms - s.uptime_ms ≤ 5100 ∧
      ((∀ t, env.drdy_high t = true) →
        s'.uptime_ms - s.uptime_ms = 5100 ∧
        Effect.mylog "APP" "DRDY timeout" ∈ new_effects s s') := by
  obtain ⟨k, b, e1, e2, e3, e4⟩ := wait_data_ready_spec fuel hf env s hw
  refine ⟨_, e1, ?_, ?_, ?_⟩
  · simp
  · simp only [Nat.add_sub_cancel_left]
    exact e2
  · intro hall
    have hb : b = false := by
      cases b
      · rfl
      · have := e4 rfl
        rw [hall] at this
        cases this
    have := e3 hb
    subst hb
    constructor
    · simp only [Nat.add_sub_cancel_left]
      omega
    · simp [new_effects, List.append_assoc]

/-- Witness for the amended C9: the line that is never asserted, with a bound of 60. -/
theorem drdy_wait_bounded_witness :
    51 ≤ 60 ∧ no_wrap_within state0.uptime_ms 5100 ∧
    (∀ t, env_never_ready.drdy_high t = true) ∧
    ∃ s', wait_data_ready 60 env_never_ready state0 = some s' ∧
      s'.uptime_ms - state0.uptime_ms = 5100 ∧
      Effect.mylog "APP" "DRDY timeout" ∈ new_effects state0 s' :=
  ⟨by decide, by decide, fun _ => rfl,
   (drdy_wait_bounded 60 (by decide) env_never_ready state0 (by decide)).elim fun s' hs' =>
     ⟨s', hs'.1, (hs'.2.2.2 (fun _ => rfl)).1, (hs'.2.2.2 (fun _ => rfl)).2⟩⟩

/-- Started less than 5001 ms before `millis()` wraps around, on a line that is never
asserted, the polling loop never reaches its timeout: `millis() - start_wait` stays
below 1000 before the wrap and is negative after it, so no bound on the number of
loop tests is enough. -/
theorem drdy_wait_near_wrap (start_wait : Nat) (h : 4294967296 ≤ start_wait + 5001) :
    ∀ (fuel : Nat) (s : State),
      drdy_wait (fun _ => true) (start_wait : Int) fuel s = none := by
  intro fuel
  induction fuel with
  | zero => intro s; rfl
  | succ n ih =>
    intro s
    unfold drdy_wait
    have hlt : millis (delay 100 s) < 4294967296 := by
      unfold millis
      omega
    have hc : ¬ ((millis (delay 100 s) : Int) - (start_wait : Int) > 5000) := by omega
    simp only [if_true, hc, if_false]
    exact ih _

/-- One second before the wrap of `millis()`, on a line that is never asserted, the
data-ready wait does not return, whatever the bound. -/
theorem wait_data_ready_near_wrap (fuel : Nat) :
    wait_data_ready fuel env_never_ready near_wrap_state = none := by
  have key : ∀ st, drdy_wait env_never_ready.drdy_high (4294966296 : Int) fuel st = none := by
    intro st
    have := drdy_wait_near_wrap 4294966296 (by decide) fuel st
    simpa using this
  have hm : millis (MYLOG "APP"
      ("DRDY = " ++ (if env_never_ready.drdy_high near_wrap_state.uptime_ms then "1" else "0"))
      near_wrap_state) = 4294966296 := by decide
  unfold wait_data_ready
  simp only [hm, Nat.cast_ofNat, key]

/-! ## The timer cycle -/

theorem report_faults_eq (mStatus : Nat) (s : State) :
    report_faults mStatus s = { s with trace := s.trace ++ fault_effects mStatus } := by
  unfold report_faults fault_effects fault_table
  by_cases h1 : mStatus &&& MAX31865_FAULT_TEMP_HIGH = 0 <;>
  by_cases h2 : mStatus &&& MAX31865_FAULT_TEMP_LOW = 0 <;>
  by_cases h3 : mStatus &&& MAX31865_FAULT_REFIN_HIGH = 0 <;>
  by_cases h4 : mStatus &&& MAX31865_FAULT_REFIN_LOW_OPEN = 0 <;>
  by_cases h5 : mStatus &&& MAX31865_FAULT_RTDIN_LOW_OPEN = 0 <;>
  by_cases h6 : mStatus &&& MAX31865_FAULT_VOLTAGE_OOR = 0 <;>
  simp [h1, h2, h3, h4, h5, h6, MYLOG, emit, List.filter]

/-- The effects of the dispatch step. -/
theorem dispatch_eq (env : TimerEnv) (s : State) :
    dispatch env s =
      { s with trace := s.trace ++
          (if s.lorawan_enable then
            if s.g_lpwan_has_joined then
              [Effect.send_lora_packet s.payload s.payload.getSize 2,
               Effect.mylog "APP" (match env.send_result with
                 | lmh_error_status.LMH_SUCCESS => "Packet enqueued"
                 | lmh_error_status.LMH_BUSY => "LoRa transceiver is busy"
                 | lmh_error_status.LMH_ERROR =>
                     "Packet error, too big to send with current DR")]
            else [Effect.mylog "APP" "Network not joined, skip sending"]
          else [Effect.send_p2p_packet s.payload s.payload.getSize]) } := by
  unfold dispatch
  cases hl : s.lorawan_enable <;> cases hj : s.g_lpwan_has_joined <;>
    cases hr : env.send_result <;> simp [hl, hj, MYLOG, emit]

theorem read_batt_loop_eq (n : Nat) (s : State) :
    read_batt_loop n s = { s with trace := s.trace ++ List.replicate n Effect.read_batt } := by
  induction n generalizing s with
  | zero => simp [read_batt_loop]
  | succ n ih => simp [read_batt_loop, ih, emit, List.replicate_succ]

/-- The reading step written out. -/
theorem encode_reading_eq (env : TimerEnv) (s : State) :
    encode_reading env s =
      { s with
        payload := if env.mResistance.ne_zero then
            s.payload.addTemperature LppChannel.LPP_CHANNEL_TEMP env.mTemp else s.payload,
        trace := s.trace ++
          [Effect.MAX31865_GetTemperatureAndStatus,
           Effect.mylog_pt100 env.mTemp env.mResistance env.mStatus] ++
          fault_effects env.mStatus ++
          [Effect.SPIend, Effect.pinMode_INPUT_PULLDOWN Pin.MOSI,
           Effect.pinMode_INPUT_PULLDOWN Pin.MISO, Effect.pinMode_INPUT_PULLDOWN Pin.SCK,
           Effect.pinMode_INPUT_PULLDOWN Pin.SS] } := by
  unfold encode_reading
  cases hz : env.mResistance.ne_zero <;> simp [report_faults_eq, emit, List.append_assoc]

/-- The start of a timer cycle written out. -/
theorem timer_wakeup_eq (env : TimerEnv) (s : State) :
    timer_wakeup env s =
      { s with
        g_task_event_type := s.g_task_event_type &&& N_STATUS,
        uptime_ms := s.uptime_ms + 200,
        payload := [⟨LppChannel.LPP_CHANNEL_BATT, LppType.LPP_VOLTAGE, env.batt_volts⟩],
        trace := s.trace ++
          [Effect.mylog "APP" "Timer wakeup", Effect.digitalWrite Pin.WB_IO2 true,
           Effect.delay 200] ++ List.replicate 10 Effect.read_batt } := by
  cases s
  simp only [timer_wakeup, MYLOG, emit, delay, read_batt_loop_eq]
  simp [WisCayenne.reset, WisCayenne.addVoltage, WisCayenne.addField, WisCayenne.getSize,
    LppEntry.size, PAYLOAD_MAXSIZE]

/-- Whenever the body of `if (has_rak12022)` returns, it has run `k` polls, made the
encode decision and appended the effects of the sensor part. -/
theorem read_sensor_shape (fuel : Nat) (env : TimerEnv) (s s' : State)
    (h : read_sensor fuel env s = some s') :
    ∃ (k : Nat) (b : Bool),
      s' = { s with
          uptime_ms := s.uptime_ms + 100 * k,
          payload := if env.mResistance.ne_zero then
            s.payload.addTemperature LppChannel.LPP_CHANNEL_TEMP env.mTemp else s.payload,
          trace := s.trace ++ sensor_effects env s.uptime_ms k b } := by
  unfold read_sensor at h
  cases hwd : wait_data_ready fuel env
      (emit (Effect.MAX31865_SetHighFaultThreshold 34)
        (emit (Effect.MAX31865_SetLowFaultThreshold 25) (emit Effect.maxTemp_begin s))) with
  | none => simp [hwd] at h
  | some u =>
    simp only [hwd, Option.some.injEq] at h
    obtain ⟨k, b, hu⟩ := wait_data_ready_shape _ _ _ _ hwd
    refine ⟨k, b, ?_⟩
    rw [← h, hu, encode_reading_eq]
    cases s
    simp [emit, sensor_effects, List.append_assoc]

/-- The body of `if (has_rak12022)` returns, with a bound of at least 51, while
`millis()` does not wrap within 5100 ms of its start. -/
theorem read_sensor_returns (fuel : Nat) (hf : 51 ≤ fuel) (env : TimerEnv) (s : State)
    (hw : no_wrap_within s.uptime_ms 5100) :
    ∃ s', read_sensor fuel env s = some s' := by
  obtain ⟨k, b, e1, _, _, _⟩ := wait_data_ready_spec fuel hf env
    (emit (Effect.MAX31865_SetHighFaultThreshold 34)
      (emit (Effect.MAX31865_SetLowFaultThreshold 25) (emit Effect.maxTemp_begin s))) hw
  unfold read_sensor
  simp only [e1]
  exact ⟨_, rfl⟩

/-- A timer cycle written out: whenever the handler returns, its result is the dispatch
step run on `before_dispatch`, followed by the power-down of the sensor supply. -/
theorem app_event_handler_shape (fuel : Nat) (env : TimerEnv) (s s' : State)
    (h : flag_raised s STATUS) (hrun : app_event_handler fuel env s = some s') :
    ∃ (k : Nat) (b : Bool),
      s' = emit (Effect.digitalWrite Pin.WB_IO2 false)
        (dispatch env (before_dispatch env s k b)) := by
  unfold flag_raised at h
  unfold app_event_handler at hrun
  rw [if_pos h] at hrun
  cases hs : s.has_rak12022
  · refine ⟨0, true, ?_⟩
    have hw : (timer_wakeup env s).has_rak12022 = false := by rw [timer_wakeup_eq]; exact hs
    simp only [hw, Bool.false_eq_true, if_false, Option.some.injEq] at hrun
    rw [← hrun, timer_wakeup_eq]
    simp [before_dispatch, hs]
  · have hw : (timer_wakeup env s).has_rak12022 = true := by rw [timer_wakeup_eq]; exact hs
    simp only [hw, if_true] at hrun
    cases hr : read_sensor fuel env (timer_wakeup env s) with
    | none => simp [hr] at hrun
    | some t =>
      simp only [hr, Option.some.injEq] at hrun
      obtain ⟨k, b, ht⟩ := read_sensor_shape _ _ _ _ hr
      refine ⟨k, b, ?_⟩
      rw [← hrun, ht, timer_wakeup_eq]
      cases hz : env.mResistance.ne_zero <;>
        simp [before_dispatch, hs, hz, WisCayenne.addTemperature, WisCayenne.addField,
          WisCayenne.getSize, LppEntry.size, PAYLOAD_MAXSIZE, List.append_assoc, Nat.add_assoc]

/-- The handler `app_event_handler` returns, with a bound of at least 51, while
`millis()` does not wrap within 5100 ms of the start of the data-ready wait, which
begins 200 ms into the cycle. -/
theorem app_event_handler_returns (fuel : Nat) (hf : 51 ≤ fuel) (env : TimerEnv) (s : State)
    (hw : no_wrap_within (s.uptime_ms + 200) 5100) :
    ∃ s', app_event_handler fuel env s = some s' := by
  unfold app_event_handler
  by_cases h : s.g_task_event_type &&& STATUS = STATUS
  · rw [if_pos h]
    cases hs : (timer_wakeup env s).has_rak12022
    · simp only [hs, Bool.false_eq_true, if_false]
      exact ⟨_, rfl⟩
    · have hu : (timer_wakeup env s).uptime_ms = s.uptime_ms + 200 := by rw [timer_wakeup_eq]
      obtain ⟨t, ht⟩ := read_sensor_returns fuel hf env (timer_wakeup env s) (by rw [hu]; exact hw)
      simp only [hs, if_true, ht]
      exact ⟨_, rfl⟩
  · rw [if_neg h]
    exact ⟨s, rfl⟩

theorem radio_submits_append (xs ys : List Effect) :
    radio_submits (xs ++ ys) = radio_submits xs ++ radio_submits ys := by
  simp [radio_submits]

theorem radio_submits_fault_effects (mStatus : Nat) : radio_submits (fault_effects mStatus) = [] := by
  simp only [radio_submits, List.filter_eq_nil_iff, fault_effects, List.mem_map]
  rintro e ⟨mt, _, rfl⟩
  simp [Effect.is_submit]

theorem radio_submits_sensor_effects (env : TimerEnv) (now k : Nat) (b : Bool) :
    radio_submits (sensor_effects env now k b) = [] := by
  unfold sensor_effects
  simp only [radio_submits_append, radio_submits_fault_effects]
  cases b <;> simp [radio_submits, Effect.is_submit, List.filter_replicate]

/-- The submit calls of a whole timer cycle are those of its dispatch step. -/
theorem timer_cycle_submits (fuel : Nat) (env : TimerEnv) (s s' : State)
    (h : flag_raised s STATUS) (hrun : app_event_handler fuel env s = some s') :
    ∃ (k : Nat) (b : Bool),
      s' = emit (Effect.digitalWrite Pin.WB_IO2 false) (dispatch env (before_dispatch env s k b)) ∧
      s'.payload = (before_dispatch env s k b).payload ∧
      radio_submits (new_effects s s') =
        (if s.lorawan_enable then
          if s.g_lpwan_has_joined then
            [Effect.send_lora_packet s'.payload s'.payload.getSize 2]
          else []
        else [Effect.send_p2p_packet s'.payload s'.payload.getSize]) := by
  obtain ⟨k, b, e⟩ := app_event_handler_shape fuel env s s' h hrun
  subst e
  refine ⟨k, b, rfl, ?_, ?_⟩
  · rw [dispatch_eq]
    rfl
  · rw [dispatch_eq]
    have hp : (before_dispatch env s k b).trace = s.trace ++
        ([Effect.mylog "APP" "Timer wakeup", Effect.digitalWrite Pin.WB_IO2 true,
          Effect.delay 200] ++ List.replicate 10 Effect.read_batt ++
          (if s.has_rak12022 then sensor_effects env (s.uptime_ms + 200) k b else [])) := by
      simp [before_dispatch, List.append_assoc]
    have hl : (before_dispatch env s k b).lorawan_enable = s.lorawan_enable := rfl
    have hj : (before_dispatch env s k b).g_lpwan_has_joined = s.g_lpwan_has_joined := rfl
    simp only [emit, new_effects, hp, hl, hj, List.append_assoc, List.drop_left]
    simp only [← List.append_assoc]
    simp only [radio_submits_append]
    cases hs : s.has_rak12022 <;> cases hle : s.lorawan_enable <;>
      cases hje : s.g_lpwan_has_joined <;>
      simp only [radio_submits_sensor_effects, if_true, if_false, Bool.false_eq_true] <;>
      simp [radio_submits, Effect.is_submit, List.filter_replicate]

/-- Claim C1: in a timer cycle with the sensor present, whatever the payload held
before, once the reading is acquired and the handler returns, the payload that results
is the one every submit call of the cycle is given, and it has no temperature entry
when the resistance compares equal to zero and exactly one temperature entry, carrying
the measured temperature, when it does not.  The handler does return (a bound of 51
loop tests is enough) as long as `millis()` does not wrap around during the data-ready
wait. -/
theorem temperature_entry_iff_resistance_nonzero (env : TimerEnv) (s : State)
    (h : flag_raised s STATUS) (hs : s.has_rak12022 = true) :
    (∀ fuel s', app_event_handler fuel env s = some s' →
      (∀ e ∈ radio_submits (new_effects s s'), e.submitted = some s'.payload) ∧
      (env.mResistance.ne_zero = false → s'.payload.temperatures = []) ∧
      (env.mResistance.ne_zero = true →
        s'.payload.temperatures =
          [⟨LppChannel.LPP_CHANNEL_TEMP, LppType.LPP_TEMPERATURE, env.mTemp⟩])) ∧
    (no_wrap_within (s.uptime_ms + 200) 5100 → ∀ fuel, 51 ≤ fuel →
      ∃ s', app_event_handler fuel env s = some s') := by
  refine ⟨?_, fun hw fuel hf => app_event_handler_returns fuel hf env s hw⟩
  intro fuel s' hrun
  obtain ⟨k, b, _, e3, e4⟩ := timer_cycle_submits fuel env s s' h hrun
  refine ⟨?_, ?_, ?_⟩
  · rw [e4]
    intro e he
    cases hl : s.lorawan_enable <;> cases hj : s.g_lpwan_has_joined <;>
      simp [hl, hj] at he <;> simp [he, Effect.submitted]
  · intro hz
    rw [e3]
    simp [before_dispatch, hs, hz, WisCayenne.temperatures]
  · intro hz
    rw [e3]
    simp [before_dispatch, hs, hz, WisCayenne.temperatures]

/-- Witness for C1: a cycle that starts with an old payload and reads 25.0 degrees at a
non-zero resistance. -/
theorem temperature_entry_iff_resistance_nonzero_witness :
    flag_raised timer_state STATUS ∧ timer_state.has_rak12022 = true ∧
    no_wrap_within (timer_state.uptime_ms + 200) 5100 ∧ 51 ≤ 51 ∧
    env0.mResistance.ne_zero = true ∧
    ∃ s', app_event_handler 51 env0 timer_state = some s' ∧
      s'.payload.temperatures =
        [⟨LppChannel.LPP_CHANNEL_TEMP, LppType.LPP_TEMPERATURE, 0x41C80000⟩] :=
  ⟨by decide, rfl, by decide, by decide, by decide,
   ((temperature_entry_iff_resistance_nonzero env0 timer_state (by decide) rfl).2
      (by decide) 51 (by decide)).elim fun s' hs' =>
     ⟨s', hs', ((temperature_entry_iff_resistance_nonzero env0 timer_state (by decide) rfl).1
        51 s' hs').2.2 (by decide)⟩⟩

/-- Claim C5: the dispatch step, for every payload and join state, makes these radio
submit calls and no others: in network mode when joined, one network submit of the
payload buffer and size with retry count 2; in network mode when not joined, none
(only the report that the network is not joined); in peer-to-peer mode, one
peer-to-peer submit of the payload buffer and size, whatever the join state.  The
rest of a timer cycle adds no submit call: whenever the handler returns, its submit
calls are those of the dispatch step, and it does return (a bound of 51 loop tests is
enough) as long as `millis()` does not wrap around during the data-ready wait. -/
theorem dispatch_submit_calls (env : TimerEnv) (s : State) :
    radio_submits (new_effects s (dispatch env s)) =
      (if s.lorawan_enable then
        if s.g_lpwan_has_joined then
          [Effect.send_lora_packet s.payload s.payload.getSize 2]
        else []
      else [Effect.send_p2p_packet s.payload s.payload.getSize]) ∧
    (s.lorawan_enable = true → s.g_lpwan_has_joined = false →
      new_effects s (dispatch env s) =
        [Effect.mylog "APP" "Network not joined, skip sending"]) ∧
    (∀ fuel s', flag_raised s STATUS → app_event_handler fuel env s = some s' →
        radio_submits (new_effects s s') =
          (if s.lorawan_enable then
            if s.g_lpwan_has_joined then
              [Effect.send_lora_packet s'.payload s'.payload.getSize 2]
            else []
          else [Effect.send_p2p_packet s'.payload s'.payload.getSize])) ∧
    (no_wrap_within (s.uptime_ms + 200) 5100 → ∀ fuel, 51 ≤ fuel →
      ∃ s', app_event_handler fuel env s = some s') := by
  refine ⟨?_, ?_, ?_, fun hw fuel hf => app_event_handler_returns fuel hf env s hw⟩
  · rw [dispatch_eq]
    cases hl : s.lorawan_enable <;> cases hj : s.g_lpwan_has_joined <;>
      simp [new_effects, radio_submits, Effect.is_submit]
  · intro hl hj
    rw [dispatch_eq]
    simp [new_effects, hl, hj]
  · intro fuel s' h hrun
    obtain ⟨_, _, _, _, e4⟩ := timer_cycle_submits fuel env s s' h hrun
    exact e4

/-- Witness for C5: a timer cycle in network mode on a node that has not joined makes
no submit call. -/
theorem dispatch_submit_calls_witness :
    timer_state_not_joined.lorawan_enable = true ∧
    timer_state_not_joined.g_lpwan_has_joined = false ∧
    flag_raised timer_state_not_joined STATUS ∧
    no_wrap_within (timer_state_not_joined.uptime_ms + 200) 5100 ∧
    new_effects timer_state_not_joined (dispatch env0 timer_state_not_joined) =
      [Effect.mylog "APP" "Network not joined, skip sending"] ∧
    ∃ s', app_event_handler 51 env0 timer_state_not_joined = some s' ∧
      radio_submits (new_effects timer_state_not_joined s') = [] :=
  ⟨rfl, rfl, by decide, by decide,
   (dispatch_submit_calls env0 timer_state_not_joined).2.1 rfl rfl,
   ((dispatch_submit_calls env0 timer_state_not_joined).2.2.2 (by decide) 51 (by decide)).elim
     fun s' hs' =>
       ⟨s', hs', (dispatch_submit_calls env0 timer_state_not_joined).2.2.1 51 s' (by decide) hs'⟩⟩

theorem count_ite_singleton (c : Prop) [Decidable c] (x y : Effect) :
    (if c then [y] else []).count x = if c ∧ y = x then 1 else 0 := by
  by_cases hc : c <;> by_cases hxy : y = x <;> simp [hc, hxy, List.count_cons]

/-- The fault reports of a status byte, bit by bit. -/
theorem fault_effects_eq (mStatus : Nat) :
    fault_effects mStatus =
      (if mStatus &&& MAX31865_FAULT_TEMP_HIGH ≠ 0 then
        [Effect.mylog "APP" "RTD High Threshold"] else []) ++
      (if mStatus &&& MAX31865_FAULT_TEMP_LOW ≠ 0 then
        [Effect.mylog "APP" "RTD Low Threshold"] else []) ++
      (if mStatus &&& MAX31865_FAULT_REFIN_HIGH ≠ 0 then
        [Effect.mylog "APP" "REFIN- > 0.85 x Bias"] else []) ++
      (if mStatus &&& MAX31865_FAULT_REFIN_LOW_OPEN ≠ 0 then
        [Effect.mylog "APP" "REFIN- < 0.85 x Bias - FORCE- open"] else []) ++
      (if mStatus &&& MAX31865_FAULT_RTDIN_LOW_OPEN ≠ 0 then
        [Effect.mylog "APP" "RTDIN- < 0.85 x Bias - FORCE- open"] else []) ++
      (if mStatus &&& MAX31865_FAULT_VOLTAGE_OOR ≠ 0 then
        [Effect.mylog "APP" "Voltage out of range fault"] else []) := by
  unfold fault_effects fault_table
  by_cases h1 : mStatus &&& MAX31865_FAULT_TEMP_HIGH = 0 <;>
  by_cases h2 : mStatus &&& MAX31865_FAULT_TEMP_LOW = 0 <;>
  by_cases h3 : mStatus &&& MAX31865_FAULT_REFIN_HIGH = 0 <;>
  by_cases h4 : mStatus &&& MAX31865_FAULT_REFIN_LOW_OPEN = 0 <;>
  by_cases h5 : mStatus &&& MAX31865_FAULT_RTDIN_LOW_OPEN = 0 <;>
  by_cases h6 : mStatus &&& MAX31865_FAULT_VOLTAGE_OOR = 0 <;>
  simp [h1, h2, h3, h4, h5, h6, List.filter]

/-- Each fault report appears in the fault reports of a status byte once when its bit
is set and not at all when its bit is clear. -/
theorem fault_effects_count (mStatus : Nat) :
    ∀ mt ∈ fault_table,
      (fault_effects mStatus).count (Effect.mylog "APP" mt.2) =
        if mStatus &&& mt.1 ≠ 0 then 1 else 0 := by
  intro mt hmt
  simp only [fault_table, List.mem_cons, List.mem_singleton, List.not_mem_nil, or_false] at hmt
  rw [fault_effects_eq]
  simp only [List.count_append, count_ite_singleton]
  rcases hmt with rfl | rfl | rfl | rfl | rfl | rfl <;> simp

/-- The effects of a whole timer cycle, in program order. -/
theorem timer_cycle_effects (fuel : Nat) (env : TimerEnv) (s s' : State)
    (h : flag_raised s STATUS) (hrun : app_event_handler fuel env s = some s') :
    ∃ (k : Nat) (b : Bool) (line : String),
      new_effects s s' =
        [Effect.mylog "APP" "Timer wakeup", Effect.digitalWrite Pin.WB_IO2 true,
          Effect.delay 200] ++ List.replicate 10 Effect.read_batt ++
        (if s.has_rak12022 then sensor_effects env (s.uptime_ms + 200) k b else []) ++
        (if s.lorawan_enable then
          if s.g_lpwan_has_joined then
            [Effect.send_lora_packet s'.payload s'.payload.getSize 2, Effect.mylog "APP" line]
          else [Effect.mylog "APP" "Network not joined, skip sending"]
        else [Effect.send_p2p_packet s'.payload s'.payload.getSize]) ++
        [Effect.digitalWrite Pin.WB_IO2 false] ∧
      line ∈ ["Packet enqueued", "LoRa transceiver is busy",
        "Packet error, too big to send with current DR"] := by
  obtain ⟨k, b, e⟩ := app_event_handler_shape fuel env s s' h hrun
  subst e
  refine ⟨k, b, (match env.send_result with
                 | lmh_error_status.LMH_SUCCESS => "Packet enqueued"
                 | lmh_error_status.LMH_BUSY => "LoRa transceiver is busy"
                 | lmh_error_status.LMH_ERROR =>
                     "Packet error, too big to send with current DR"), ?_, ?_⟩
  · rw [dispatch_eq]
    have hp : (before_dispatch env s k b).trace = s.trace ++
        ([Effect.mylog "APP" "Timer wakeup", Effect.digitalWrite Pin.WB_IO2 true,
          Effect.delay 200] ++ List.replicate 10 Effect.read_batt ++
          (if s.has_rak12022 then sensor_effects env (s.uptime_ms + 200) k b else [])) := by
      simp [before_dispatch, List.append_assoc]
    have hl : (before_dispatch env s k b).lorawan_enable = s.lorawan_enable := rfl
    have hj : (before_dispatch env s k b).g_lpwan_has_joined = s.g_lpwan_has_joined := rfl
    simp only [emit, new_effects, hp, hl, hj, List.append_assoc, List.drop_left]
  · cases env.send_result <;> simp

theorem not_fault_report_count (L : List Effect) (hL : ∀ e ∈ L, e.is_fault_report = false)
    (mt : Nat × String) (hmt : mt ∈ fault_table) :
    L.count (Effect.mylog "APP" mt.2) = 0 := by
  rw [List.count_eq_zero]
  intro hmem
  have h1 := hL _ hmem
  have h2 : (Effect.mylog "APP" mt.2).is_fault_report = true := by
    simp only [Effect.is_fault_report, List.any_eq_true]
    exact ⟨mt, hmt, by simp⟩
  rw [h2] at h1
  cases h1

theorem cycle_start_not_fault_report :
    ∀ e ∈ [Effect.mylog "APP" "Timer wakeup", Effect.digitalWrite Pin.WB_IO2 true,
        Effect.delay 200] ++ List.replicate 10 Effect.read_batt,
      e.is_fault_report = false := by
  decide

theorem sensor_start_not_fault_report (drdy_high : Nat → Bool) (now k : Nat) (b : Bool)
    (mTemp mResistance : F32) (mStatus : Nat) :
    ∀ e ∈ [Effect.maxTemp_begin, Effect.MAX31865_SetLowFaultThreshold 25,
        Effect.MAX31865_SetHighFaultThreshold 34,
        Effect.mylog "APP" ("DRDY = " ++ (if drdy_high now then "1" else "0"))] ++
        List.replicate k (Effect.delay 100) ++
        (if b then [] else [Effect.mylog "APP" "DRDY timeout"]) ++
        [Effect.MAX31865_GetTemperatureAndStatus,
          Effect.mylog_pt100 mTemp mResistance mStatus],
      e.is_fault_report = false := by
  intro e he
  simp only [List.mem_append, List.mem_cons, List.mem_singleton, List.not_mem_nil, or_false,
    List.mem_replicate] at he
  rcases he with (((rfl | rfl | rfl | rfl) | ⟨_, rfl⟩) | he) | (rfl | rfl)
  · decide
  · decide
  · decide
  · cases drdy_high now <;> decide
  · decide
  · cases b
    · simp only [Bool.false_eq_true, if_false, List.mem_singleton] at he
      subst he
      decide
    · simp at he
  · decide
  · simp [Effect.is_fault_report, fault_table]

theorem sensor_end_not_fault_report :
    ∀ e ∈ [Effect.SPIend, Effect.pinMode_INPUT_PULLDOWN Pin.MOSI,
        Effect.pinMode_INPUT_PULLDOWN Pin.MISO, Effect.pinMode_INPUT_PULLDOWN Pin.SCK,
        Effect.pinMode_INPUT_PULLDOWN Pin.SS],
      e.is_fault_report = false := by
  decide

theorem cycle_end_not_fault_report (lorawan_enable joined : Bool) (p : WisCayenne)
    (line : String)
    (hline : line ∈ ["Packet enqueued", "LoRa transceiver is busy",
      "Packet error, too big to send with current DR"]) :
    ∀ e ∈ (if lorawan_enable then
          if joined then [Effect.send_lora_packet p p.getSize 2, Effect.mylog "APP" line]
          else [Effect.mylog "APP" "Network not joined, skip sending"]
        else [Effect.send_p2p_packet p p.getSize]) ++
        [Effect.digitalWrite Pin.WB_IO2 false],
      e.is_fault_report = false := by
  simp only [List.mem_cons, List.mem_singleton, List.not_mem_nil, or_false] at hline
  intro e he
  cases lorawan_enable <;> cases joined <;>
    simp only [if_true, if_false, Bool.false_eq_true, List.mem_append, List.mem_cons,
      List.mem_singleton, List.not_mem_nil, or_false] at he
  · rcases he with rfl | rfl
    · simp [Effect.is_fault_report, fault_table]
    · decide
  · rcases he with rfl | rfl
    · simp [Effect.is_fault_report, fault_table]
    · decide
  · rcases he with rfl | rfl <;> decide
  · rcases he with (rfl | rfl) | rfl
    · simp [Effect.is_fault_report, fault_table]
    · rcases hline with rfl | rfl | rfl <;> decide
    · decide

/-- Claim C10: two timer cycles from the same state whose readings agree in temperature
and resistance and differ only in the fault status, once both have returned, end with
the same payload and have made the same radio submit calls; with the sensor present,
each of the six fault reports is logged once when its bit of the status is set and not
at all when it is clear.  Both cycles do return (a bound of 51 loop tests is enough) as
long as `millis()` does not wrap around during the data-ready wait. -/
theorem fault_status_only_affects_diagnostics (env : TimerEnv) (s : State)
    (status1 status2 : Nat) (h : flag_raised s STATUS) :
    (∀ fuel1 fuel2 s1 s2,
      app_event_handler fuel1 { env with mStatus := status1 } s = some s1 →
      app_event_handler fuel2 { env with mStatus := status2 } s = some s2 →
      s1.payload = s2.payload ∧
      radio_submits (new_effects s s1) = radio_submits (new_effects s s2) ∧
      (s.has_rak12022 = true → ∀ mt ∈ fault_table,
        (new_effects s s1).count (Effect.mylog "APP" mt.2) =
          if status1 &&& mt.1 ≠ 0 then 1 else 0)) ∧
    (no_wrap_within (s.uptime_ms + 200) 5100 → ∀ fuel, 51 ≤ fuel →
      ∃ s1 s2,
        app_event_handler fuel { env with mStatus := status1 } s = some s1 ∧
        app_event_handler fuel { env with mStatus := status2 } s = some s2) := by
  constructor
  · intro fuel1 fuel2 s1 s2 a1 c1
    obtain ⟨k1, b1, _, a3, a4⟩ :=
      timer_cycle_submits fuel1 { env with mStatus := status1 } s s1 h a1
    obtain ⟨k2, b2, _, c3, c4⟩ :=
      timer_cycle_submits fuel2 { env with mStatus := status2 } s s2 h c1
    have hp : s1.payload = s2.payload := by rw [a3, c3]; rfl
    refine ⟨hp, ?_, ?_⟩
    · rw [a4, c4, hp]
    · intro hs mt hmt
      obtain ⟨k, b, line, d2, d3⟩ :=
        timer_cycle_effects fuel1 { env with mStatus := status1 } s s1 h a1
      have hc := fault_effects_count status1 mt hmt
      have z1 := not_fault_report_count _ (cycle_start_not_fault_report) mt hmt
      have z2 := not_fault_report_count _
        (sensor_start_not_fault_report env.drdy_high (s.uptime_ms + 200) k b env.mTemp
          env.mResistance status1) mt hmt
      have z3 := not_fault_report_count _ sensor_end_not_fault_report mt hmt
      have z4 := not_fault_report_count _
        (cycle_end_not_fault_report s.lorawan_enable s.g_lpwan_has_joined s1.payload line d3)
        mt hmt
      have hsplit : new_effects s s1 =
          ([Effect.mylog "APP" "Timer wakeup", Effect.digitalWrite Pin.WB_IO2 true,
            Effect.delay 200] ++ List.replicate 10 Effect.read_batt) ++
          (([Effect.maxTemp_begin, Effect.MAX31865_SetLowFaultThreshold 25,
            Effect.MAX31865_SetHighFaultThreshold 34,
            Effect.mylog "APP"
              ("DRDY = " ++ (if env.drdy_high (s.uptime_ms + 200) then "1" else "0"))] ++
            List.replicate k (Effect.delay 100) ++
            (if b then [] else [Effect.mylog "APP" "DRDY timeout"]) ++
            [Effect.MAX31865_GetTemperatureAndStatus,
              Effect.mylog_pt100 env.mTemp env.mResistance status1]) ++
          (fault_effects status1 ++
          ([Effect.SPIend, Effect.pinMode_INPUT_PULLDOWN Pin.MOSI,
            Effect.pinMode_INPUT_PULLDOWN Pin.MISO, Effect.pinMode_INPUT_PULLDOWN Pin.SCK,
            Effect.pinMode_INPUT_PULLDOWN Pin.SS] ++
          ((if s.lorawan_enable then
              if s.g_lpwan_has_joined then
                [Effect.send_lora_packet s1.payload s1.payload.getSize 2,
                  Effect.mylog "APP" line]
              else [Effect.mylog "APP" "Network not joined, skip sending"]
            else [Effect.send_p2p_packet s1.payload s1.payload.getSize]) ++
            [Effect.digitalWrite Pin.WB_IO2 false])))) := by
        rw [d2]
        simp only [hs, if_true, sensor_effects, List.append_assoc]
      rw [hsplit]
      simp only [List.count_append] at z1 z2 z4 ⊢
      rw [hc, z3]
      generalize (if status1 &&& mt.1 ≠ 0 then 1 else 0) = r
      omega
  · intro hw fuel hf
    obtain ⟨s1, h1⟩ := app_event_handler_returns fuel hf { env with mStatus := status1 } s hw
    obtain ⟨s2, h2⟩ := app_event_handler_returns fuel hf { env with mStatus := status2 } s hw
    exact ⟨s1, s2, h1, h2⟩

/-! ## The failure counter along runs -/

/-- The counter and the restart request after `lora_data_handler`, for every state. -/
theorem lora_data_handler_counter (s : State) :
    ((lora_data_handler s).send_fail =
        if flag_raised s LORA_TX_FIN ∧ s.lorawan_enable = true ∧ s.g_rx_fin_result = false
        then (s.send_fail + 1) % 256 else s.send_fail) ∧
    (Effect.api_reset ∈ new_effects s (lora_data_handler s) ↔
        (flag_raised s LORA_TX_FIN ∧ s.lorawan_enable = true ∧ s.g_rx_fin_result = false) ∧
          (s.send_fail + 1) % 256 = 10) := by
  obtain ⟨m1, m2, m3, m4, m5, es, m6, m7⟩ := before_tx_fin s
  by_cases h : flag_raised s LORA_TX_FIN
  · have key := lora_tx_fin_raised _ (m5.mpr h)
    rw [m1, m2, m3, m4, m6] at key
    unfold lora_data_handler
    rw [key]
    cases hl : s.lorawan_enable <;> cases hr : s.g_rx_fin_result <;>
      by_cases h10 : (s.send_fail + 1) % 256 = 10 <;>
      simp [h, hl, hr, h10, new_effects, m7]
  · have hi := lora_tx_fin_idle _ (fun hh => h (m5.mp hh))
    unfold lora_data_handler
    rw [hi]
    simp [h, m1, new_effects, m6, m7]

theorem ble_forward_send_fail (bytes : List Nat) (s : State) :
    (ble_forward bytes s).send_fail = s.send_fail := by
  induction bytes generalizing s with
  | nil => rfl
  | cons b rest ih =>
    unfold ble_forward
    rw [ih]
    rfl

theorem ble_data_handler_send_fail (s : State) : (ble_data_handler s).send_fail = s.send_fail := by
  unfold ble_data_handler
  split_ifs
  · simp only [emit, MYLOG]
    rw [ble_forward_send_fail]
  · rfl
  · rfl

theorem app_event_handler_send_fail (fuel : Nat) (env : TimerEnv) (s s' : State)
    (h : app_event_handler fuel env s = some s') : s'.send_fail = s.send_fail := by
  by_cases hflag : flag_raised s STATUS
  · obtain ⟨k, b, e⟩ := app_event_handler_shape fuel env s s' hflag h
    rw [e, dispatch_eq]
    rfl
  · unfold flag_raised at hflag
    unfold app_event_handler at h
    simp only [hflag, if_false, Option.some.injEq] at h
    rw [h]

/-- On every reachable state the counter is at most 9. -/
theorem reachable_send_fail_le (s : State) (hr : Reachable s) : s.send_fail ≤ 9 := by
  induction hr with
  | startup s h0 => omega
  | environment s e _ he ih => omega
  | timer s s' fuel env _ ht ih =>
    rw [app_event_handler_send_fail fuel env s s' ht]
    exact ih
  | ble s _ ih =>
    rw [ble_data_handler_send_fail]
    exact ih
  | lora s _ ih =>
    obtain ⟨c1, c2⟩ := lora_data_handler_counter s
    unfold lora_step
    split_ifs with hreset
    · simp [restart]
    · rw [c1]
      rw [c2] at hreset
      split_ifs with hc
      · have : (s.send_fail + 1) % 256 ≠ 10 := fun h10 => hreset ⟨hc, h10⟩
        omega
      · exact ih

/-- Claim C4: in every state reachable from start-up, where a restart puts the counter
back to 0, a tx-finished event in network mode with confirmed delivery and the
success flag false makes the handler raise `send_fail` by exactly 1 (there is no
wrap-around, the counter being at most 9 before), and a run of any of the three
handlers that does not trigger a restart leaves `send_fail` at least as large as
it was. -/
theorem send_fail_counts_and_never_decreases (s : State) (hr : Reachable s) :
    s.send_fail ≤ 9 ∧
    (flag_raised s LORA_TX_FIN → s.lorawan_enable = true →
      s.confirmed_msg_enabled = lmh_confirm.LMH_CONFIRMED_MSG → s.g_rx_fin_result = false →
      (lora_data_handler s).send_fail = s.send_fail + 1) ∧
    (Effect.api_reset ∉ new_effects s (lora_data_handler s) →
      lora_step s = lora_data_handler s ∧ s.send_fail ≤ (lora_step s).send_fail) ∧
    s.send_fail ≤ (ble_data_handler s).send_fail ∧
    (∀ fuel env s', app_event_handler fuel env s = some s' → s.send_fail ≤ s'.send_fail) := by
  have h9 := reachable_send_fail_le s hr
  obtain ⟨c1, _⟩ := lora_data_handler_counter s
  refine ⟨h9, ?_, ?_, ?_, ?_⟩
  · intro hf hl _ hres
    rw [c1, if_pos ⟨hf, hl, hres⟩]
    omega
  · intro hno
    have hstep : lora_step s = lora_data_handler s := by
      unfold lora_step
      rw [if_neg hno]
    refine ⟨hstep, ?_⟩
    rw [hstep, c1]
    split_ifs <;> omega
  · rw [ble_data_handler_send_fail]
  · intro fuel env s' h
    rw [app_event_handler_send_fail fuel env s s' h]

/-- Witness for C4: the start-up state with a confirmed send that failed. -/
theorem send_fail_counts_and_never_decreases_witness :
    Reachable confirmed_nak_state ∧
    (lora_data_handler confirmed_nak_state).send_fail = confirmed_nak_state.send_fail + 1 :=
  ⟨Reachable.startup _ rfl,
   (send_fail_counts_and_never_decreases confirmed_nak_state
      (Reachable.startup _ rfl)).2.1 (by decide) rfl rfl rfl⟩

/-- Witness for C10: the same cycle with no fault and with the over-temperature and
voltage faults set. -/
theorem fault_status_only_affects_diagnostics_witness :
    flag_raised timer_state STATUS ∧ no_wrap_within (timer_state.uptime_ms + 200) 5100 ∧
    51 ≤ 51 ∧
    ∃ s1 s2,
      app_event_handler 51 { env0 with mStatus := 0 } timer_state = some s1 ∧
      app_event_handler 51 { env0 with mStatus := 0x84 } timer_state = some s2 ∧
      s1.payload = s2.payload ∧
      radio_submits (new_effects timer_state s1) = radio_submits (new_effects timer_state s2) :=
  ⟨by decide, by decide, by decide,
   ((fault_status_only_affects_diagnostics env0 timer_state 0 0x84 (by decide)).2
      (by decide) 51 (by decide)).elim fun s1 h1 => h1.elim fun s2 h2 =>
        ⟨s1, s2, h2.1, h2.2,
         ((fault_status_only_affects_diagnostics env0 timer_state 0 0x84 (by decide)).1
            51 51 s1 s2 h2.1 h2.2).1,
         ((fault_status_only_affects_diagnostics env0 timer_state 0 0x84 (by decide)).1
            51 51 s1 s2 h2.1 h2.2).2.1⟩⟩

/-! ## The receive dump -/

set_option maxRecDepth 100000 in
/-- Claim C8, the code at a frame of 129 bytes: the write index wraps to 0 after byte
127, byte 128 is written over the start of the buffer, and the string printed has 2
characters, the hex digits of byte 128, not 258. -/
theorem rx_hex_string_129_bytes :
    rx_hex_string rx_frame_129 129 = ['8', '0'] ∧
    (rx_hex_string rx_frame_129 129).length ≠ 2 * 129 ∧
    (rx_dump_loop [] 2 rx_frame_129 128 0 0 (rx_spaced_buff rx_frame_129 129)).2 = 0 := by
  decide

/-- A `sprintf` at the end of a prefix of the buffer replaces what follows the prefix
by the text and the terminator, when they fit. -/
theorem sprintf_at_append (text : List Char) :
    ∀ (pre tail : List Char), text.length + 1 ≤ tail.length →
      sprintf_at (pre ++ tail) pre.length text =
        pre ++ (text ++ NUL :: tail.drop (text.length + 1)) := by
  induction text with
  | nil =>
    intro pre tail h
    cases tail with
    | nil => simp at h
    | cons t0 tl => simp [sprintf_at]
  | cons c cs ih =>
    intro pre tail h
    cases tail with
    | nil => simp at h
    | cons t0 tl =>
      have h2 : cs.length + 1 ≤ tl.length := by
        simp only [List.length_cons] at h
        omega
      have e := ih (pre ++ [c]) tl h2
      simp only [List.length_append, List.length_singleton, List.append_assoc,
        List.singleton_append] at e
      simp only [sprintf_at, List.set_append_right _ _ (Nat.le_refl _), Nat.sub_self,
        List.set_cons_zero, e, List.length_cons, List.drop_succ_cons, List.cons_append]

theorem sprintf_at_length (text : List Char) :
    ∀ (buf : List Char) (pos : Nat), (sprintf_at buf pos text).length = buf.length := by
  induction text with
  | nil => intro buf pos; simp [sprintf_at]
  | cons c cs ih => intro buf pos; simp [sprintf_at, ih]

theorem rx_dump_loop_length (suffix : List Char) (step : Nat) (data : List Nat) :
    ∀ (n idx log_idx : Nat) (buf : List Char),
      (rx_dump_loop suffix step data n idx log_idx buf).1.length = buf.length := by
  intro n
  induction n with
  | zero => intro idx log_idx buf; rfl
  | succ n ih =>
    intro idx log_idx buf
    simp [rx_dump_loop, ih, sprintf_at_length]

theorem sprintf_02X_length (byte : Nat) : (sprintf_02X byte).length = 2 := rfl

theorem hex_dump_length (data : List Nat) :
    ∀ (n idx : Nat), (hex_dump data idx n).length = 2 * n := by
  intro n
  induction n with
  | zero => intro idx; rfl
  | succ n ih =>
    intro idx
    simp only [hex_dump, List.length_append, sprintf_02X_length, ih]
    omega

/-- The second loop while the index has not wrapped: started at the end of a prefix
whose length is the index, with room for the digits and the terminator, it appends
the hex digits of the next `n` bytes and a terminator. -/
theorem rx_dump_loop_hex (data : List Nat) :
    ∀ (n idx : Nat) (pre tail : List Char),
      pre.length + 2 * n ≤ 256 → 2 * n + 1 ≤ tail.length → 0 < n →
      (rx_dump_loop [] 2 data n idx pre.length (pre ++ tail)).1 =
        pre ++ (hex_dump data idx n ++ NUL :: tail.drop (2 * n + 1)) := by
  intro n
  induction n with
  | zero => intro idx pre tail _ _ h; omega
  | succ n ih =>
    intro idx pre tail h1 h2 _
    have hs := sprintf_at_append (sprintf_02X (data.getD idx 0 % 256) ++ []) pre tail
      (by simp only [List.append_nil, sprintf_02X_length]; omega)
    simp only [List.append_nil, sprintf_02X_length] at hs
    unfold rx_dump_loop
    rw [List.append_nil, hs]
    cases n with
    | zero => simp [rx_dump_loop, hex_dump]
    | succ m =>
      have hw : (pre.length + 2) % 256 = (pre ++ sprintf_02X (data.getD idx 0 % 256)).length := by
        rw [List.length_append, sprintf_02X_length]
        exact Nat.mod_eq_of_lt (by omega)
      rw [hw, ← List.append_assoc]
      rw [ih (idx + 1) (pre ++ sprintf_02X (data.getD idx 0 % 256))
        (NUL :: tail.drop 3)
        (by rw [List.length_append, sprintf_02X_length]; omega)
        (by simp only [List.length_cons, List.length_drop]; omega)
        (by omega)]
      simp only [hex_dump, List.append_assoc, List.drop_succ_cons, List.drop_drop]
      have e3 : 3 + 2 * (m + 1) = 2 * (m + 1 + 1) + 1 := by omega
      rw [e3]

theorem hex_digit_upper_ne_NUL (d : Nat) (h : d < 16) : hex_digit_upper d ≠ NUL := by
  have : ∀ d, d < 16 → hex_digit_upper d ≠ NUL := by decide
  exact this d h

theorem hex_dump_no_NUL (data : List Nat) :
    ∀ (n idx : Nat), ∀ c ∈ hex_dump data idx n, (c != NUL) = true := by
  intro n
  induction n with
  | zero => intro idx c hc; simp [hex_dump] at hc
  | succ n ih =>
    intro idx c hc
    simp only [hex_dump, sprintf_02X, List.mem_append, List.mem_cons, List.mem_singleton,
      List.not_mem_nil, or_false] at hc
    rcases hc with (rfl | rfl) | hc
    · simpa using hex_digit_upper_ne_NUL _ (by omega)
    · simpa using hex_digit_upper_ne_NUL _ (by omega)
    · exact ih _ _ hc

theorem hex_digit_upper_mem (d : Nat) (h : d < 16) :
    hex_digit_upper d ∈ "0123456789ABCDEF".data := by
  have : ∀ d, d < 16 → hex_digit_upper d ∈ "0123456789ABCDEF".data := by decide
  exact this d h

theorem hex_dump_digits (data : List Nat) :
    ∀ (n idx : Nat), ∀ c ∈ hex_dump data idx n, c ∈ "0123456789ABCDEF".data := by
  intro n
  induction n with
  | zero => intro idx c hc; simp [hex_dump] at hc
  | succ n ih =>
    intro idx c hc
    simp only [hex_dump, sprintf_02X, List.mem_append, List.mem_cons, List.mem_singleton,
      List.not_mem_nil, or_false] at hc
    rcases hc with (rfl | rfl) | hc
    · exact hex_digit_upper_mem _ (by omega)
    · exact hex_digit_upper_mem _ (by omega)
    · exact ih _ _ hc

theorem hex_dump_nibbles (data : List Nat) :
    ∀ (n idx i : Nat), i < n →
      (hex_dump data idx n)[2 * i]? = some (hex_digit_upper (data.getD (idx + i) 0 % 256 / 16)) ∧
      (hex_dump data idx n)[2 * i + 1]? =
        some (hex_digit_upper (data.getD (idx + i) 0 % 256 % 16)) := by
  intro n
  induction n with
  | zero => intro idx i h; omega
  | succ n ih =>
    intro idx i h
    cases i with
    | zero => simp [hex_dump, sprintf_02X]
    | succ j =>
      have := ih (idx + 1) j (by omega)
      have e1 : 2 * (j + 1) = 2 * j + 1 + 1 := by omega
      have e2 : idx + (j + 1) = idx + 1 + j := by omega
      simp only [hex_dump, sprintf_02X, List.cons_append, List.nil_append, e1, e2,
        List.getElem?_cons_succ]
      exact this

/-- Up to 128 received bytes the hex string is the hex dump of the frame: 2N
characters, all of them uppercase hex digits, characters 2i and 2i+1 being the high
and the low nibble of byte i.  From 129 bytes on the 8-bit write index wraps. -/
theorem rx_hex_string_le_128 (data : List Nat) (len : Nat) (h : len ≤ 128) :
    rx_hex_string data len = hex_dump data 0 len ∧
    (rx_hex_string data len).length = 2 * len ∧
    (∀ c ∈ rx_hex_string data len, c ∈ "0123456789ABCDEF".data) ∧
    (∀ i, i < len →
      (rx_hex_string data len)[2 * i]? = some (hex_digit_upper (data.getD i 0 % 256 / 16)) ∧
      (rx_hex_string data len)[2 * i + 1]? =
        some (hex_digit_upper (data.getD i 0 % 256 % 16))) := by
  have key : rx_hex_string data len = hex_dump data 0 len := by
    rcases Nat.eq_zero_or_pos len with h0 | hpos
    · subst h0
      rfl
    · unfold rx_hex_string rx_hex_buff
      have hl : (rx_spaced_buff data len).length = len * 3 := by
        simp [rx_spaced_buff, rx_dump_loop_length, log_buff_init]
      have := rx_dump_loop_hex data len 0 [] (rx_spaced_buff data len)
        (by simp only [List.length_nil]; omega) (by omega) hpos
      simp only [List.length_nil, List.nil_append] at this
      rw [this]
      unfold c_str
      rw [List.takeWhile_append_of_pos (hex_dump_no_NUL data len 0)]
      simp [NUL]
  refine ⟨key, by rw [key, hex_dump_length], ?_, ?_⟩
  · rw [key]
    exact hex_dump_digits data len 0
  · intro i hi
    rw [key]
    simpa using hex_dump_nibbles data len 0 i hi

end RAK12022
